import Mathlib

/-!
Shallow embedding of the faceted snowboard-catalog query engine of
`src/views/SnowboardCatalog.vue` over the relational schema of `db/init.sql`.

Numbers stored in numeric columns and filter bounds are modelled as `ℚ`.
Nullable SQL columns are modelled as `Option`; a SQL comparison or `IN`
membership test against a NULL value is false, matching PostgreSQL
semantics (a `gte`/`lte`/`in` PostgREST filter never matches a NULL cell).
-/

namespace SnowboardCatalog

/-- A row of the `board_sizes_catalog` view (backed by the `board_size`
table).  Only the columns touched by the size sub-query of
`fetchSnowboards` are modelled; `board_model_id` is nullable in the schema,
`size_cm` is NOT NULL, `wide` is a nullable boolean. -/
structure SizeRow where
  board_model_id : Option Nat
  size_cm : ℚ
  waist_width_mm : Option ℚ
  tip_width_mm : Option ℚ
  tail_width_mm : Option ℚ
  effective_edge_mm : Option ℚ
  running_length_mm : Option ℚ
  sidecut_radius_m : Option ℚ
  sidecut_depth_mm : Option ℚ
  min_stance_in : Option ℚ
  max_stance_in : Option ℚ
  setback_in : Option ℚ
  rider_weight_min_lbs : Option ℚ
  rider_weight_max_lbs : Option ℚ
  wide : Option Bool
deriving DecidableEq

/-- A row of the `board_model_ability_level` junction table (both columns
NOT NULL). -/
structure AbilityJunctionRow where
  board_model_id : Nat
  ability_level_id : Nat
deriving DecidableEq

/-- A row of the `board_model_terrain_type` junction table (both columns
NOT NULL). -/
structure TerrainJunctionRow where
  board_model_id : Nat
  terrain_type_id : Nat
deriving DecidableEq

/-- A row of the denormalized `board_catalog` view: `id` and `model_name`
come from NOT NULL columns of `board_model`; every other projected column
can be NULL (nullable source column or LEFT JOIN miss). -/
structure CatalogRow where
  id : Nat
  model_name : String
  model_year : Option Int
  gender : Option String
  msrp : Option ℚ
  flex_rating : Option ℚ
  image_url : Option String
  brand_name : Option String
  profile : Option String
  shape : Option String
  response_type : Option String
deriving DecidableEq

/-- One grouped option produced by `fetchFilterOptions` from the
`catalog_filters` view: it sets both `name` and `standard_name` to the
same `value` column, so a single `name` field models both. -/
structure FacetOption where
  id : Nat
  name : String
deriving DecidableEq

/-- The relational store visible to `fetchSnowboards`, plus the cached
facet vocabularies loaded by `fetchFilterOptions`. -/
structure Store where
  sizes : List SizeRow
  abilityJunction : List AbilityJunctionRow
  terrainJunction : List TerrainJunctionRow
  catalog : List CatalogRow
  brands : List FacetOption
  profiles : List FacetOption
  shapes : List FacetOption
  responseTypes : List FacetOption
deriving DecidableEq

/-- The filter-state shape of `createDefaultFilters` in
`SnowboardCatalog.vue`: multi-select id/value lists, nullable numeric
bounds, and the `wide` boolean. -/
structure Filters where
  brandId : List Nat
  year : List Int
  gender : List String
  priceMin : Option ℚ
  priceMax : Option ℚ
  profileId : List Nat
  shapeId : List Nat
  responseTypeId : List Nat
  flexMin : Option ℚ
  flexMax : Option ℚ
  abilityLevelIds : List Nat
  terrainTypeIds : List Nat
  sizeMin : Option ℚ
  sizeMax : Option ℚ
  waistWidthMin : Option ℚ
  waistWidthMax : Option ℚ
  tipWidthMin : Option ℚ
  tipWidthMax : Option ℚ
  tailWidthMin : Option ℚ
  tailWidthMax : Option ℚ
  effectiveEdgeMin : Option ℚ
  effectiveEdgeMax : Option ℚ
  runningLengthMin : Option ℚ
  runningLengthMax : Option ℚ
  wide : Bool
  sidecutRadiusMin : Option ℚ
  sidecutRadiusMax : Option ℚ
  sidecutDepthMin : Option ℚ
  sidecutDepthMax : Option ℚ
  minStanceMin : Option ℚ
  minStanceMax : Option ℚ
  maxStanceMin : Option ℚ
  maxStanceMax : Option ℚ
  setbackMin : Option ℚ
  setbackMax : Option ℚ
  riderWeightMin : Option ℚ
  riderWeightMax : Option ℚ
deriving DecidableEq

/-- `createDefaultFilters()`: everything unconstrained except the flex
slider, which starts at its full 1–10 range. -/
def createDefaultFilters : Filters where
  brandId := []
  year := []
  gender := []
  priceMin := none
  priceMax := none
  profileId := []
  shapeId := []
  responseTypeId := []
  flexMin := some 1
  flexMax := some 10
  abilityLevelIds := []
  terrainTypeIds := []
  sizeMin := none
  sizeMax := none
  waistWidthMin := none
  waistWidthMax := none
  tipWidthMin := none
  tipWidthMax := none
  tailWidthMin := none
  tailWidthMax := none
  effectiveEdgeMin := none
  effectiveEdgeMax := none
  runningLengthMin := none
  runningLengthMax := none
  wide := false
  sidecutRadiusMin := none
  sidecutRadiusMax := none
  sidecutDepthMin := none
  sidecutDepthMax := none
  minStanceMin := none
  minStanceMax := none
  maxStanceMin := none
  maxStanceMax := none
  setbackMin := none
  setbackMax := none
  riderWeightMin := none
  riderWeightMax := none

/-- SQL `column >= bound` on a nullable column: NULL never matches. -/
def optGe (c : Option ℚ) (b : ℚ) : Bool :=
  match c with
  | some v => decide (b ≤ v)
  | none => false

/-- SQL `column <= bound` on a nullable column: NULL never matches. -/
def optLe (c : Option ℚ) (b : ℚ) : Bool :=
  match c with
  | some v => decide (v ≤ b)
  | none => false

/-- One predicate of the `board_sizes_catalog` sub-query.  Each
constructor corresponds to one `sizeQuery = sizeQuery.gte/lte/eq(...)`
line of `fetchSnowboards`; the weight-range pair is deliberately
inverted in the source (`gte` on the variant's max column against the
requested min, `lte` on the variant's min column against the requested
max). -/
inductive SizeFilter
  | gteSizeCm (v : ℚ)
  | lteSizeCm (v : ℚ)
  | gteWaistWidth (v : ℚ)
  | lteWaistWidth (v : ℚ)
  | gteTipWidth (v : ℚ)
  | lteTipWidth (v : ℚ)
  | gteTailWidth (v : ℚ)
  | lteTailWidth (v : ℚ)
  | gteEffectiveEdge (v : ℚ)
  | lteEffectiveEdge (v : ℚ)
  | gteRunningLength (v : ℚ)
  | lteRunningLength (v : ℚ)
  | gteSidecutRadius (v : ℚ)
  | lteSidecutRadius (v : ℚ)
  | gteSidecutDepth (v : ℚ)
  | lteSidecutDepth (v : ℚ)
  | gteMinStance (v : ℚ)
  | lteMinStance (v : ℚ)
  | gteMaxStance (v : ℚ)
  | lteMaxStance (v : ℚ)
  | gteSetback (v : ℚ)
  | lteSetback (v : ℚ)
  | gteRiderWeightMaxCol (v : ℚ)
  | lteRiderWeightMinCol (v : ℚ)
  | eqWideTrue
deriving DecidableEq

/-- `if (bound !== null) q = q.pred(col, bound)`: emit one filter when the
bound is set. -/
def optSF (b : Option ℚ) (mk : ℚ → SizeFilter) : List SizeFilter :=
  match b with
  | some v => [mk v]
  | none => []

/-- The list of predicates the size sub-query accumulates, in source
order. -/
def buildSizeFilters (f : Filters) : List SizeFilter :=
  optSF f.sizeMin SizeFilter.gteSizeCm ++ optSF f.sizeMax SizeFilter.lteSizeCm ++
  optSF f.waistWidthMin SizeFilter.gteWaistWidth ++ optSF f.waistWidthMax SizeFilter.lteWaistWidth ++
  optSF f.tipWidthMin SizeFilter.gteTipWidth ++ optSF f.tipWidthMax SizeFilter.lteTipWidth ++
  optSF f.tailWidthMin SizeFilter.gteTailWidth ++ optSF f.tailWidthMax SizeFilter.lteTailWidth ++
  optSF f.effectiveEdgeMin SizeFilter.gteEffectiveEdge ++ optSF f.effectiveEdgeMax SizeFilter.lteEffectiveEdge ++
  optSF f.runningLengthMin SizeFilter.gteRunningLength ++ optSF f.runningLengthMax SizeFilter.lteRunningLength ++
  optSF f.sidecutRadiusMin SizeFilter.gteSidecutRadius ++ optSF f.sidecutRadiusMax SizeFilter.lteSidecutRadius ++
  optSF f.sidecutDepthMin SizeFilter.gteSidecutDepth ++ optSF f.sidecutDepthMax SizeFilter.lteSidecutDepth ++
  optSF f.minStanceMin SizeFilter.gteMinStance ++ optSF f.minStanceMax SizeFilter.lteMinStance ++
  optSF f.maxStanceMin SizeFilter.gteMaxStance ++ optSF f.maxStanceMax SizeFilter.lteMaxStance ++
  optSF f.setbackMin SizeFilter.gteSetback ++ optSF f.setbackMax SizeFilter.lteSetback ++
  optSF f.riderWeightMin SizeFilter.gteRiderWeightMaxCol ++ optSF f.riderWeightMax SizeFilter.lteRiderWeightMinCol ++
  (if f.wide then [SizeFilter.eqWideTrue] else [])

/-- Evaluate one size predicate on a `board_sizes_catalog` row. -/
def sizeRowMatches (r : SizeRow) : SizeFilter → Bool
  | SizeFilter.gteSizeCm v => decide (v ≤ r.size_cm)
  | SizeFilter.lteSizeCm v => decide (r.size_cm ≤ v)
  | SizeFilter.gteWaistWidth v => optGe r.waist_width_mm v
  | SizeFilter.lteWaistWidth v => optLe r.waist_width_mm v
  | SizeFilter.gteTipWidth v => optGe r.tip_width_mm v
  | SizeFilter.lteTipWidth v => optLe r.tip_width_mm v
  | SizeFilter.gteTailWidth v => optGe r.tail_width_mm v
  | SizeFilter.lteTailWidth v => optLe r.tail_width_mm v
  | SizeFilter.gteEffectiveEdge v => optGe r.effective_edge_mm v
  | SizeFilter.lteEffectiveEdge v => optLe r.effective_edge_mm v
  | SizeFilter.gteRunningLength v => optGe r.running_length_mm v
  | SizeFilter.lteRunningLength v => optLe r.running_length_mm v
  | SizeFilter.gteSidecutRadius v => optGe r.sidecut_radius_m v
  | SizeFilter.lteSidecutRadius v => optLe r.sidecut_radius_m v
  | SizeFilter.gteSidecutDepth v => optGe r.sidecut_depth_mm v
  | SizeFilter.lteSidecutDepth v => optLe r.sidecut_depth_mm v
  | SizeFilter.gteMinStance v => optGe r.min_stance_in v
  | SizeFilter.lteMinStance v => optLe r.min_stance_in v
  | SizeFilter.gteMaxStance v => optGe r.max_stance_in v
  | SizeFilter.lteMaxStance v => optLe r.max_stance_in v
  | SizeFilter.gteSetback v => optGe r.setback_in v
  | SizeFilter.lteSetback v => optLe r.setback_in v
  | SizeFilter.gteRiderWeightMaxCol v => optGe r.rider_weight_max_lbs v
  | SizeFilter.lteRiderWeightMinCol v => optLe r.rider_weight_min_lbs v
  | SizeFilter.eqWideTrue => decide (r.wide = some true)

/-- `hasSizeFilters`: some dimensional/weight bound is non-null or the
wide toggle is on (source order preserved). -/
def hasSizeFilters (f : Filters) : Bool :=
  f.sizeMin.isSome || f.sizeMax.isSome ||
  f.waistWidthMin.isSome || f.waistWidthMax.isSome ||
  f.tipWidthMin.isSome || f.tipWidthMax.isSome ||
  f.tailWidthMin.isSome || f.tailWidthMax.isSome ||
  f.effectiveEdgeMin.isSome || f.effectiveEdgeMax.isSome ||
  f.runningLengthMin.isSome || f.runningLengthMax.isSome ||
  f.sidecutRadiusMin.isSome || f.sidecutRadiusMax.isSome ||
  f.sidecutDepthMin.isSome || f.sidecutDepthMax.isSome ||
  f.minStanceMin.isSome || f.minStanceMax.isSome ||
  f.maxStanceMin.isSome || f.maxStanceMax.isSome ||
  f.setbackMin.isSome || f.setbackMax.isSome ||
  f.riderWeightMin.isSome || f.riderWeightMax.isSome ||
  f.wide

/-- `[...new Set(list)]`: de-duplicate keeping first occurrences. -/
def jsUniq (l : List Nat) : List Nat :=
  l.foldl (fun acc x => if x ∈ acc then acc else acc ++ [x]) []

/-- `.map(s => s.board_model_id).filter(Boolean)` over nullable ids:
drops SQL NULL and the JS-falsy id 0. -/
def jsCompactIds (l : List (Option Nat)) : List Nat :=
  l.filterMap (fun o =>
    match o with
    | some n => if n = 0 then none else some n
    | none => none)

/-- The de-duplicated `board_model_id`s of the size rows matching every
size predicate (the `boardModelIds` produced by the size sub-query). -/
def sizeIds (store : Store) (f : Filters) : List Nat :=
  jsUniq (jsCompactIds ((store.sizes.filter
    (fun r => (buildSizeFilters f).all (sizeRowMatches r))).map
      (fun r => r.board_model_id)))

/-- The de-duplicated board ids of ability-junction rows whose
`ability_level_id` is in the selection (`.filter(Boolean)` drops id 0). -/
def abilityRaw (store : Store) (f : Filters) : List Nat :=
  jsUniq (((store.abilityJunction.filter
    (fun j => decide (j.ability_level_id ∈ f.abilityLevelIds))).map
      (fun j => j.board_model_id)).filter (fun n => decide (n ≠ 0)))

/-- The de-duplicated board ids of terrain-junction rows whose
`terrain_type_id` is in the selection. -/
def terrainRaw (store : Store) (f : Filters) : List Nat :=
  jsUniq (((store.terrainJunction.filter
    (fun j => decide (j.terrain_type_id ∈ f.terrainTypeIds))).map
      (fun j => j.board_model_id)).filter (fun n => decide (n ≠ 0)))

/-- Restriction after the size stage: `null` when no size filter is
applied, otherwise the computed id list. -/
def afterSize (store : Store) (f : Filters) : Option (List Nat) :=
  if hasSizeFilters f then some (sizeIds store f) else none

/-- `boardModelIds !== null ? boardModelIds.filter(id => raw.includes(id))
: raw`. -/
def intersectOpt (r : Option (List Nat)) (raw : List Nat) : List Nat :=
  match r with
  | some ids => ids.filter (fun i => decide (i ∈ raw))
  | none => raw

/-- The ability stage of candidate-set resolution (ignoring the
short-circuit, which only matters for which queries are issued). -/
def abilityStep (store : Store) (f : Filters) (r : Option (List Nat)) :
    Option (List Nat) :=
  if f.abilityLevelIds = [] then r else some (intersectOpt r (abilityRaw store f))

/-- The terrain stage of candidate-set resolution. -/
def terrainStep (store : Store) (f : Filters) (r : Option (List Nat)) :
    Option (List Nat) :=
  if f.terrainTypeIds = [] then r else some (intersectOpt r (terrainRaw store f))

/-- The fully resolved id restriction handed to the main query:
`none` = unrestricted, `some l` = inclusion filter on `l`. -/
def afterTerrain (store : Store) (f : Filters) : Option (List Nat) :=
  terrainStep store f (abilityStep store f (afterSize store f))

/-- Strip leading and trailing whitespace from a character list
(`String.trim` restated over `List Char` so that it reduces in the
kernel). -/
def trimChars (l : List Char) : List Char :=
  ((l.dropWhile Char.isWhitespace).reverse.dropWhile Char.isWhitespace).reverse

/-- JavaScript `s.trim()`. -/
def jsTrim (s : String) : String :=
  String.mk (trimChars s.data)

/-- Lower-case a character list (`String.toLower` restated so that it
reduces in the kernel). -/
def lowerChars (l : List Char) : List Char :=
  l.map Char.toLower

/-- Is `pat` a prefix of `l` (character lists)? -/
def startsWithChars (pat : List Char) : List Char → Bool :=
  fun l =>
    match pat, l with
    | [], _ => true
    | _ :: _, [] => false
    | a :: as, b :: bs => decide (a = b) && startsWithChars as bs

/-- Does `pat` occur as a contiguous sublist of `l`? -/
def hasSubChars (pat : List Char) : List Char → Bool
  | [] => startsWithChars pat []
  | b :: bs => startsWithChars pat (b :: bs) || hasSubChars pat bs

/-- Case-insensitive substring test: the semantics of
`ilike('model_name', '%term%')`. -/
def containsCI (hay pat : String) : Bool :=
  hasSubChars (lowerChars pat.data) (lowerChars hay.data)

/-- Kernel-computable lexicographic order on character lists, used to
model the server's `ORDER BY model_name ASC` collation as a fixed total
order on display names. -/
def charListLe : List Char → List Char → Bool
  | [], _ => true
  | _ :: _, [] => false
  | a :: as, b :: bs => if a = b then charListLe as bs else decide (a < b)

/-- Display-name order of two catalog rows (the only ordering key the main
query requests). -/
def nameLeB (a b : CatalogRow) : Bool :=
  charListLe a.model_name.data b.model_name.data

/-- `nameLeB` as a relation. -/
def nameLe (a b : CatalogRow) : Prop :=
  nameLeB a b = true

instance : DecidableRel nameLe :=
  fun a b => inferInstanceAs (Decidable (nameLeB a b = true))

/-- One predicate of the main `board_catalog` query.  Each constructor
corresponds to one `query = query.in/ilike/gte/lte(...)` line of
`fetchSnowboards`.  `ilikeName` stores the trimmed search text; the
`%...%` wrapping of the source is folded into its substring evaluation. -/
inductive MainFilter
  | inIds (ids : List Nat)
  | ilikeName (term : String)
  | inBrandName (names : List String)
  | inProfile (names : List String)
  | inShape (names : List String)
  | inResponseType (names : List String)
  | inModelYear (years : List Int)
  | gteFlex (v : ℚ)
  | lteFlex (v : ℚ)
  | inGender (gs : List String)
  | gteMsrp (v : ℚ)
  | lteMsrp (v : ℚ)
deriving DecidableEq

/-- Evaluate one main-query predicate on a `board_catalog` row. -/
def rowMatchesMain (r : CatalogRow) : MainFilter → Bool
  | MainFilter.inIds ids => decide (r.id ∈ ids)
  | MainFilter.ilikeName t => containsCI r.model_name t
  | MainFilter.inBrandName ns =>
      match r.brand_name with
      | some n => decide (n ∈ ns)
      | none => false
  | MainFilter.inProfile ns =>
      match r.profile with
      | some n => decide (n ∈ ns)
      | none => false
  | MainFilter.inShape ns =>
      match r.shape with
      | some n => decide (n ∈ ns)
      | none => false
  | MainFilter.inResponseType ns =>
      match r.response_type with
      | some n => decide (n ∈ ns)
      | none => false
  | MainFilter.inModelYear ys =>
      match r.model_year with
      | some y => decide (y ∈ ys)
      | none => false
  | MainFilter.gteFlex v => optGe r.flex_rating v
  | MainFilter.lteFlex v => optLe r.flex_rating v
  | MainFilter.inGender gs =>
      match r.gender with
      | some g => decide (g ∈ gs)
      | none => false
  | MainFilter.gteMsrp v => optGe r.msrp v
  | MainFilter.lteMsrp v => optLe r.msrp v

/-- `if (boardModelIds !== null) query = query.in('id', boardModelIds)`. -/
def restrictionFilters (r : Option (List Nat)) : List MainFilter :=
  match r with
  | some ids => [MainFilter.inIds ids]
  | none => []

/-- `if (searchQuery.value.trim()) query = query.ilike('model_name',
'%' + trimmed + '%')`. -/
def searchFilters (s : String) : List MainFilter :=
  if jsTrim s = "" then [] else [MainFilter.ilikeName (jsTrim s)]

/-- The selected-ids-to-display-names translation shared by the brand /
profile / shape / response-type filters: look the selected surrogate ids
up in the cached vocabulary and filter on the resulting names, skipping
the filter entirely when no selection or no name resolves. -/
def facetNameFilters (catalog : List FacetOption) (selected : List Nat)
    (mk : List String → MainFilter) : List MainFilter :=
  if selected = [] then []
  else
    let names := (catalog.filter (fun o => decide (o.id ∈ selected))).map
      (fun o => o.name)
    if names = [] then [] else [mk names]

/-- `if (filters.value.year.length > 0) query.in('model_year', years)`. -/
def yearFilters (ys : List Int) : List MainFilter :=
  if ys = [] then [] else [MainFilter.inModelYear ys]

/-- The flex predicates: skipped entirely when the range is the exact
default `flexMin === 1 && flexMax === 10`; otherwise each non-null bound
contributes an inclusive comparison. -/
def flexFilters (f : Filters) : List MainFilter :=
  if f.flexMin = some 1 ∧ f.flexMax = some 10 then []
  else
    (match f.flexMin with
     | some v => [MainFilter.gteFlex v]
     | none => []) ++
    (match f.flexMax with
     | some v => [MainFilter.lteFlex v]
     | none => [])

/-- `if (filters.value.gender.length > 0) query.in('gender', gs)`. -/
def genderFilters (gs : List String) : List MainFilter :=
  if gs = [] then [] else [MainFilter.inGender gs]

/-- The open-ended price range: each bound applied only if present. -/
def priceFilters (f : Filters) : List MainFilter :=
  (match f.priceMin with
   | some v => [MainFilter.gteMsrp v]
   | none => []) ++
  (match f.priceMax with
   | some v => [MainFilter.lteMsrp v]
   | none => [])

/-- All non-id predicates of the main query, in source order. -/
def buildSingleFilters (store : Store) (f : Filters) (s : String) :
    List MainFilter :=
  searchFilters s ++
  facetNameFilters store.brands f.brandId MainFilter.inBrandName ++
  facetNameFilters store.profiles f.profileId MainFilter.inProfile ++
  facetNameFilters store.shapes f.shapeId MainFilter.inShape ++
  facetNameFilters store.responseTypes f.responseTypeId MainFilter.inResponseType ++
  yearFilters f.year ++
  flexFilters f ++
  genderFilters f.gender ++
  priceFilters f

/-- The full predicate list of the main `board_catalog` query. -/
def buildMainFilters (store : Store) (f : Filters) (s : String)
    (r : Option (List Nat)) : List MainFilter :=
  restrictionFilters r ++ buildSingleFilters store f s

/-- Does a catalog row pass every predicate of the main query? -/
def rowPasses (store : Store) (f : Filters) (s : String)
    (r : Option (List Nat)) (row : CatalogRow) : Bool :=
  (buildMainFilters store f s r).all (rowMatchesMain row)

/-- The nested `brand: { id, name }` object of the display shape. -/
structure BrandRef where
  id : Option Nat
  name : Option String
deriving DecidableEq

/-- The nested `{ id, standard_name }` objects of the display shape. -/
structure FacetRef where
  id : Option Nat
  standard_name : Option String
deriving DecidableEq

/-- The display object built by the transform step of `fetchSnowboards`
for the `SnowboardCard` component. -/
structure DisplayRow where
  id : Nat
  model_name : String
  model_year : Option Int
  flex_rating : Option ℚ
  gender : Option String
  msrp : Option ℚ
  image_url : Option String
  brand : BrandRef
  profile : FacetRef
  shape : FacetRef
  response_type : FacetRef
deriving DecidableEq

/-- The `allData.map(board => ({...}))` projection: flat view columns into
the nested display shape, with every nested facet id hard-coded to null. -/
def transformBoard (b : CatalogRow) : DisplayRow where
  id := b.id
  model_name := b.model_name
  model_year := b.model_year
  flex_rating := b.flex_rating
  gender := b.gender
  msrp := b.msrp
  image_url := b.image_url
  brand := { id := none, name := b.brand_name }
  profile := { id := none, standard_name := b.profile }
  shape := { id := none, standard_name := b.shape }
  response_type := { id := none, standard_name := b.response_type }

/-- The component refs written by every completed `fetchSnowboards` run. -/
structure ViewState where
  snowboards : List DisplayRow
  totalCount : Nat
  error : Option String
  loading : Bool
deriving DecidableEq

/-- The four network round trips `fetchSnowboards` can issue. -/
inductive QueryTag
  | sizeQ
  | abilityQ
  | terrainQ
  | mainQ
deriving DecidableEq

/-- Transport-failure injection: which of the four queries throws. -/
structure Failures where
  sizeFail : Bool
  abilityFail : Bool
  terrainFail : Bool
  mainFail : Bool
deriving DecidableEq

/-- All queries succeed. -/
def noFailures : Failures where
  sizeFail := false
  abilityFail := false
  terrainFail := false
  mainFail := false

/-- The state written by the `catch` block: rows cleared, count zeroed,
user-facing message set (`loading` cleared by `finally`). -/
def errorState : ViewState where
  snowboards := []
  totalCount := 0
  error := some ("Failed to load snowboards. Please try again later.")
  loading := false

/-- The state written by an empty-restriction short-circuit: a legitimate
zero-result outcome, no error. -/
def emptyState : ViewState where
  snowboards := []
  totalCount := 0
  error := none
  loading := false

/-- The fixed page size. -/
def itemsPerPage : Nat := 12

/-- The main `board_catalog` round trip: build the predicates, filter,
count exactly, order by `model_name`, slice the page `[from, from+11]`,
and project.  `List.insertionSort` fixes one server ordering consistent
with `order('model_name', { ascending: true })`; the full (weaker)
guarantee of that clause is captured by `validMainExecution` below. -/
def runMain (store : Store) (f : Filters) (s : String) (page : Nat)
    (fail : Failures) (r : Option (List Nat)) (log : List QueryTag) :
    ViewState × List QueryTag :=
  if fail.mainFail then (errorState, log ++ [QueryTag.mainQ])
  else
    let matched := store.catalog.filter (rowPasses store f s r)
    let sorted := List.insertionSort nameLe matched
    let pageRows := (sorted.drop ((page - 1) * itemsPerPage)).take itemsPerPage
    ({ snowboards := pageRows.map transformBoard
       totalCount := matched.length
       error := none
       loading := false },
     log ++ [QueryTag.mainQ])

/-- The terrain-type stage of `fetchSnowboards`: query the junction table
when terrain types are selected, short-circuit on an empty raw set or an
empty intersection, otherwise continue to the main query. -/
def continueTerrain (store : Store) (f : Filters) (s : String) (page : Nat)
    (fail : Failures) (r : Option (List Nat)) (log : List QueryTag) :
    ViewState × List QueryTag :=
  if f.terrainTypeIds = [] then runMain store f s page fail r log
  else if fail.terrainFail then (errorState, log ++ [QueryTag.terrainQ])
  else
    let raw := terrainRaw store f
    if raw = [] then (emptyState, log ++ [QueryTag.terrainQ])
    else
      match r with
      | some ids =>
          let inter := ids.filter (fun i => decide (i ∈ raw))
          if inter = [] then (emptyState, log ++ [QueryTag.terrainQ])
          else runMain store f s page fail (some inter) (log ++ [QueryTag.terrainQ])
      | none => runMain store f s page fail (some raw) (log ++ [QueryTag.terrainQ])

/-- The ability-level stage of `fetchSnowboards`, same shape as the
terrain stage. -/
def continueAbility (store : Store) (f : Filters) (s : String) (page : Nat)
    (fail : Failures) (r : Option (List Nat)) (log : List QueryTag) :
    ViewState × List QueryTag :=
  if f.abilityLevelIds = [] then continueTerrain store f s page fail r log
  else if fail.abilityFail then (errorState, log ++ [QueryTag.abilityQ])
  else
    let raw := abilityRaw store f
    if raw = [] then (emptyState, log ++ [QueryTag.abilityQ])
    else
      match r with
      | some ids =>
          let inter := ids.filter (fun i => decide (i ∈ raw))
          if inter = [] then (emptyState, log ++ [QueryTag.abilityQ])
          else continueTerrain store f s page fail (some inter) (log ++ [QueryTag.abilityQ])
      | none => continueTerrain store f s page fail (some raw) (log ++ [QueryTag.abilityQ])

/-- The whole `fetchSnowboards` pipeline: size stage, ability stage,
terrain stage, main query; returns the final component state together
with the list of queries actually issued.  A transport failure at any
issued query aborts to `errorState` (the `catch` block). -/
def fetchSnowboards (store : Store) (f : Filters) (s : String) (page : Nat)
    (fail : Failures) : ViewState × List QueryTag :=
  if hasSizeFilters f then
    if fail.sizeFail then (errorState, [QueryTag.sizeQ])
    else
      let ids := sizeIds store f
      if ids = [] then (emptyState, [QueryTag.sizeQ])
      else continueAbility store f s page fail (some ids) [QueryTag.sizeQ]
  else continueAbility store f s page fail none []

/-- `fetchSnowboards` as a transition on the displayed state: the source
writes `snowboards`, `totalCount` and `error` on every completed run, so
the previous state is never consulted. -/
def fetchStep (store : Store) (f : Filters) (s : String) (page : Nat)
    (fail : Failures) (_prev : ViewState) : ViewState :=
  (fetchSnowboards store f s page fail).1

/-- The `totalCount` a successful run reports. -/
def pipelineCount (store : Store) (f : Filters) (s : String) (page : Nat) :
    Nat :=
  (fetchSnowboards store f s page noFailures).1.totalCount

/-- The ordering the claim asserts: display name ascending with an
identity-column tie-break on equal names. -/
def nameThenIdLe (a b : CatalogRow) : Prop :=
  (nameLeB a b = true ∧ nameLeB b a = false) ∨
  (a.model_name = b.model_name ∧ a.id ≤ b.id)

instance : DecidableRel nameThenIdLe :=
  fun a b => inferInstanceAs
    (Decidable ((nameLeB a b = true ∧ nameLeB b a = false) ∨
      (a.model_name = b.model_name ∧ a.id ≤ b.id)))

/-- Everything the executed main query guarantees about its output: the
returned page is the `[from, from+11]` slice of some permutation of the
filtered population that is sorted by `model_name` ascending, and the
count is exact.  The relative order of rows with equal names is chosen by
the server, not by the request. -/
def validMainExecution (store : Store) (f : Filters) (s : String)
    (r : Option (List Nat)) (page : Nat) (out : List CatalogRow)
    (cnt : Nat) : Prop :=
  ∃ perm : List CatalogRow,
    perm.Perm (store.catalog.filter (rowPasses store f s r)) ∧
    perm.Sorted nameLe ∧
    out = (perm.drop ((page - 1) * itemsPerPage)).take itemsPerPage ∧
    cnt = perm.length

/-- The state the pagination controller reads and writes: `currentPage`,
the last reported `totalCount`, and a counter of `fetchSnowboards`
invocations (one per `currentPage` change, via `watch(currentPage)`). -/
structure PageState where
  currentPage : Int
  totalCount : Nat
  fetchCount : Nat
deriving DecidableEq

/-- `totalPages = Math.ceil(totalCount / itemsPerPage)`. -/
def totalPages (st : PageState) : Int :=
  Int.ofNat ((st.totalCount + itemsPerPage - 1) / itemsPerPage)

/-- `goToPage(page)`: accepted only when `1 <= page <= totalPages`; an
accepted change of `currentPage` triggers one fetch through the watcher
(assigning the same value to a ref does not fire the watcher). -/
def goToPage (st : PageState) (page : Int) : PageState :=
  if 1 ≤ page ∧ page ≤ totalPages st then
    { st with
      currentPage := page
      fetchCount := st.fetchCount + (if page = st.currentPage then 0 else 1) }
  else st

/-- The state of the debounced text-search path: the `searchQuery` ref,
whether a `searchTimeout` is pending, the `currentPage` ref, a counter of
`fetchSnowboards` invocations, and the log of search values a fired
commit used. -/
structure DebounceState where
  searchQuery : String
  timerPending : Bool
  currentPage : Int
  fetchCount : Nat
  commits : List String
deriving DecidableEq

/-- One keystroke: `v-model` writes the ref, then `handleSearch` clears
any pending timer and arms a fresh one. -/
def applyEdit (st : DebounceState) (v : String) : DebounceState :=
  { st with searchQuery := v, timerPending := true }

/-- The debounce timer firing: `currentPage.value = 1` followed by an
explicit `fetchSnowboards()`.  When the page assignment changes the ref,
`watch(currentPage)` schedules a second `fetchSnowboards()`. -/
def fireTimer (st : DebounceState) : DebounceState :=
  if st.timerPending then
    { searchQuery := st.searchQuery
      timerPending := false
      currentPage := 1
      fetchCount := st.fetchCount + (if st.currentPage = 1 then 1 else 2)
      commits := st.commits ++ [st.searchQuery] }
  else st

/-- A burst of keystrokes each arriving within the debounce window of the
previous one: every edit but the last has its timer cancelled, and the
single surviving timer fires once after the burst. -/
def runBurst (st : DebounceState) (vs : List String) : DebounceState :=
  fireTimer (vs.foldl applyEdit st)

/-- Membership in an optional id restriction: `none` restricts nothing. -/
def memOpt (r : Option (List Nat)) (i : Nat) : Prop :=
  match r with
  | some l => i ∈ l
  | none => True

/-- The reference count: how many catalog rows pass the main predicates
built over the fully resolved restriction. -/
def countModel (store : Store) (f : Filters) (s : String) : Nat :=
  (store.catalog.filter (rowPasses store f s (afterTerrain store f))).length

/-- One constraint added to a `Filters` value: a selection set for a
multi-select facet, one numeric bound, or the wide toggle.  The carried
value is the newly selected set / bound. -/
inductive FilterAdd
  | brand (ids : List Nat)
  | year (ys : List Int)
  | gender (gs : List String)
  | priceMin (v : ℚ)
  | priceMax (v : ℚ)
  | profileSel (ids : List Nat)
  | shapeSel (ids : List Nat)
  | responseTypeSel (ids : List Nat)
  | flexMin (v : ℚ)
  | flexMax (v : ℚ)
  | ability (ids : List Nat)
  | terrain (ids : List Nat)
  | sizeMin (v : ℚ)
  | sizeMax (v : ℚ)
  | waistWidthMin (v : ℚ)
  | waistWidthMax (v : ℚ)
  | tipWidthMin (v : ℚ)
  | tipWidthMax (v : ℚ)
  | tailWidthMin (v : ℚ)
  | tailWidthMax (v : ℚ)
  | effectiveEdgeMin (v : ℚ)
  | effectiveEdgeMax (v : ℚ)
  | runningLengthMin (v : ℚ)
  | runningLengthMax (v : ℚ)
  | wide
  | sidecutRadiusMin (v : ℚ)
  | sidecutRadiusMax (v : ℚ)
  | sidecutDepthMin (v : ℚ)
  | sidecutDepthMax (v : ℚ)
  | minStanceMin (v : ℚ)
  | minStanceMax (v : ℚ)
  | maxStanceMin (v : ℚ)
  | maxStanceMax (v : ℚ)
  | setbackMin (v : ℚ)
  | setbackMax (v : ℚ)
  | riderWeightMin (v : ℚ)
  | riderWeightMax (v : ℚ)

/-- Apply one added constraint to a filter state. -/
def applyAdd (f : Filters) : FilterAdd → Filters
  | FilterAdd.brand ids => { f with brandId := ids }
  | FilterAdd.year ys => { f with year := ys }
  | FilterAdd.gender gs => { f with gender := gs }
  | FilterAdd.priceMin v => { f with priceMin := some v }
  | FilterAdd.priceMax v => { f with priceMax := some v }
  | FilterAdd.profileSel ids => { f with profileId := ids }
  | FilterAdd.shapeSel ids => { f with shapeId := ids }
  | FilterAdd.responseTypeSel ids => { f with responseTypeId := ids }
  | FilterAdd.flexMin v => { f with flexMin := some v }
  | FilterAdd.flexMax v => { f with flexMax := some v }
  | FilterAdd.ability ids => { f with abilityLevelIds := ids }
  | FilterAdd.terrain ids => { f with terrainTypeIds := ids }
  | FilterAdd.sizeMin v => { f with sizeMin := some v }
  | FilterAdd.sizeMax v => { f with sizeMax := some v }
  | FilterAdd.waistWidthMin v => { f with waistWidthMin := some v }
  | FilterAdd.waistWidthMax v => { f with waistWidthMax := some v }
  | FilterAdd.tipWidthMin v => { f with tipWidthMin := some v }
  | FilterAdd.tipWidthMax v => { f with tipWidthMax := some v }
  | FilterAdd.tailWidthMin v => { f with tailWidthMin := some v }
  | FilterAdd.tailWidthMax v => { f with tailWidthMax := some v }
  | FilterAdd.effectiveEdgeMin v => { f with effectiveEdgeMin := some v }
  | FilterAdd.effectiveEdgeMax v => { f with effectiveEdgeMax := some v }
  | FilterAdd.runningLengthMin v => { f with runningLengthMin := some v }
  | FilterAdd.runningLengthMax v => { f with runningLengthMax := some v }
  | FilterAdd.wide => { f with wide := true }
  | FilterAdd.sidecutRadiusMin v => { f with sidecutRadiusMin := some v }
  | FilterAdd.sidecutRadiusMax v => { f with sidecutRadiusMax := some v }
  | FilterAdd.sidecutDepthMin v => { f with sidecutDepthMin := some v }
  | FilterAdd.sidecutDepthMax v => { f with sidecutDepthMax := some v }
  | FilterAdd.minStanceMin v => { f with minStanceMin := some v }
  | FilterAdd.minStanceMax v => { f with minStanceMax := some v }
  | FilterAdd.maxStanceMin v => { f with maxStanceMin := some v }
  | FilterAdd.maxStanceMax v => { f with maxStanceMax := some v }
  | FilterAdd.setbackMin v => { f with setbackMin := some v }
  | FilterAdd.setbackMax v => { f with setbackMax := some v }
  | FilterAdd.riderWeightMin v => { f with riderWeightMin := some v }
  | FilterAdd.riderWeightMax v => { f with riderWeightMax := some v }

/-- The targeted facet or attribute was previously unconstrained: an empty
selection set, an unset bound (for flex, alternatively the whole facet at
its default 1–10 range, which the builder treats as unconstrained), or
wide off — and the new selection set is non-empty. -/
def isAddition (f : Filters) : FilterAdd → Prop
  | FilterAdd.brand ids => f.brandId = [] ∧ ids ≠ []
  | FilterAdd.year ys => f.year = [] ∧ ys ≠ []
  | FilterAdd.gender gs => f.gender = [] ∧ gs ≠ []
  | FilterAdd.priceMin _ => f.priceMin = none
  | FilterAdd.priceMax _ => f.priceMax = none
  | FilterAdd.profileSel ids => f.profileId = [] ∧ ids ≠ []
  | FilterAdd.shapeSel ids => f.shapeId = [] ∧ ids ≠ []
  | FilterAdd.responseTypeSel ids => f.responseTypeId = [] ∧ ids ≠ []
  | FilterAdd.flexMin _ => f.flexMin = none ∨ (f.flexMin = some 1 ∧ f.flexMax = some 10)
  | FilterAdd.flexMax _ => f.flexMax = none ∨ (f.flexMin = some 1 ∧ f.flexMax = some 10)
  | FilterAdd.ability ids => f.abilityLevelIds = [] ∧ ids ≠ []
  | FilterAdd.terrain ids => f.terrainTypeIds = [] ∧ ids ≠ []
  | FilterAdd.sizeMin _ => f.sizeMin = none
  | FilterAdd.sizeMax _ => f.sizeMax = none
  | FilterAdd.waistWidthMin _ => f.waistWidthMin = none
  | FilterAdd.waistWidthMax _ => f.waistWidthMax = none
  | FilterAdd.tipWidthMin _ => f.tipWidthMin = none
  | FilterAdd.tipWidthMax _ => f.tipWidthMax = none
  | FilterAdd.tailWidthMin _ => f.tailWidthMin = none
  | FilterAdd.tailWidthMax _ => f.tailWidthMax = none
  | FilterAdd.effectiveEdgeMin _ => f.effectiveEdgeMin = none
  | FilterAdd.effectiveEdgeMax _ => f.effectiveEdgeMax = none
  | FilterAdd.runningLengthMin _ => f.runningLengthMin = none
  | FilterAdd.runningLengthMax _ => f.runningLengthMax = none
  | FilterAdd.wide => f.wide = false
  | FilterAdd.sidecutRadiusMin _ => f.sidecutRadiusMin = none
  | FilterAdd.sidecutRadiusMax _ => f.sidecutRadiusMax = none
  | FilterAdd.sidecutDepthMin _ => f.sidecutDepthMin = none
  | FilterAdd.sidecutDepthMax _ => f.sidecutDepthMax = none
  | FilterAdd.minStanceMin _ => f.minStanceMin = none
  | FilterAdd.minStanceMax _ => f.minStanceMax = none
  | FilterAdd.maxStanceMin _ => f.maxStanceMin = none
  | FilterAdd.maxStanceMax _ => f.maxStanceMax = none
  | FilterAdd.setbackMin _ => f.setbackMin = none
  | FilterAdd.setbackMax _ => f.setbackMax = none
  | FilterAdd.riderWeightMin _ => f.riderWeightMin = none
  | FilterAdd.riderWeightMax _ => f.riderWeightMax = none

/-- The addition does not complete the exact default flex range: if the
resulting state has `flexMin = 1 ∧ flexMax = 10` (which the builder drops
as unconstrained), the original state already did. -/
def noNewDefaultFlex (f : Filters) (a : FilterAdd) : Prop :=
  ((applyAdd f a).flexMin = some 1 ∧ (applyAdd f a).flexMax = some 10) →
    (f.flexMin = some 1 ∧ f.flexMax = some 10)


/-- Is a main-query predicate the id inclusion filter? -/
def isIdFilter : MainFilter → Bool
  | MainFilter.inIds _ => true
  | _ => false

/-- Is a main-query predicate one of the flex-rating comparisons? -/
def isFlexFilter : MainFilter → Bool
  | MainFilter.gteFlex _ => true
  | MainFilter.lteFlex _ => true
  | _ => false

/-- A filter state constraining only the rider-weight range. -/
def weightOnlyFilters (lo hi : ℚ) : Filters :=
  { createDefaultFilters with riderWeightMin := some lo, riderWeightMax := some hi }

/-- A catalog row with a NULL `flex_rating` (allowed by the schema: the
CHECK constraint only bounds non-null values). -/
def rowNullFlex : CatalogRow where
  id := 1
  model_name := "Alpha"
  model_year := some 2025
  gender := some ("Mens")
  msrp := some 300
  flex_rating := none
  image_url := none
  brand_name := some ("Bigfoot")
  profile := some ("Camber")
  shape := some ("Twin")
  response_type := some ("Responsive")

/-- A one-row store used by concrete witnesses. -/
def demoStore : Store where
  sizes := []
  abilityJunction := []
  terrainJunction := []
  catalog := [rowNullFlex]
  brands := [{ id := 7, name := "Bigfoot" }]
  profiles := []
  shapes := []
  responseTypes := []

/-- Default filters with the flexMax bound unset (reachable filter-state
shape: the builder null-checks both flex bounds). -/
def flexGapFilters : Filters :=
  { createDefaultFilters with flexMax := none }

/-- A size row supporting riders of 100–150 lbs. -/
def weightRow : SizeRow where
  board_model_id := some 1
  size_cm := 155
  waist_width_mm := none
  tip_width_mm := none
  tail_width_mm := none
  effective_edge_mm := none
  running_length_mm := none
  sidecut_radius_m := none
  sidecut_depth_mm := none
  min_stance_in := none
  max_stance_in := none
  setback_in := none
  rider_weight_min_lbs := some 100
  rider_weight_max_lbs := some 150
  wide := none

/-- Two catalog rows sharing the same display name, distinct ids. -/
def rowTieA : CatalogRow where
  id := 1
  model_name := "Same"
  model_year := none
  gender := none
  msrp := none
  flex_rating := none
  image_url := none
  brand_name := none
  profile := none
  shape := none
  response_type := none

def rowTieB : CatalogRow where
  id := 2
  model_name := "Same"
  model_year := none
  gender := none
  msrp := none
  flex_rating := none
  image_url := none
  brand_name := none
  profile := none
  shape := none
  response_type := none

/-- A store whose catalog holds the two tied rows. -/
def tieStore : Store where
  sizes := []
  abilityJunction := []
  terrainJunction := []
  catalog := [rowTieA, rowTieB]
  brands := []
  profiles := []
  shapes := []
  responseTypes := []

/-- Only the main query fails. -/
def failMainOnly : Failures :=
  { noFailures with mainFail := true }

/-- A previously displayed non-empty result. -/
def prevDisplayed : ViewState where
  snowboards := [transformBoard rowNullFlex]
  totalCount := 1
  error := none
  loading := false

/-- Default filters plus a terrain-type selection matched by no junction
row. -/
def terrainOnlyFilters : Filters :=
  { createDefaultFilters with terrainTypeIds := [3] }

/-- Debounce state sitting on page 2 with no pending timer. -/
def pageTwoDebounce : DebounceState where
  searchQuery := ""
  timerPending := false
  currentPage := 2
  fetchCount := 0
  commits := []

/-- The value of the last edit of a burst (empty string for an empty
burst). -/
def lastEdit : List String → String
  | [] => ""
  | [v] => v
  | _ :: vs => lastEdit vs

/-- Pagination state: page 1 of a 25-row population. -/
def pageDemo : PageState where
  currentPage := 1
  totalCount := 25
  fetchCount := 0

theorem jsUniq_aux (i : Nat) (l : List Nat) : ∀ acc : List Nat,
    (i ∈ l.foldl (fun acc x => if x ∈ acc then acc else acc ++ [x]) acc ↔
      i ∈ acc ∨ i ∈ l) := by
  induction l with
  | nil => intro acc; simp
  | cons x xs ih =>
      intro acc
      rw [List.foldl_cons, ih]
      by_cases hx : x ∈ acc
      · simp only [if_pos hx, List.mem_cons]
        constructor
        · rintro (h | h)
          · exact Or.inl h
          · exact Or.inr (Or.inr h)
        · rintro (h | h | h)
          · exact Or.inl h
          · exact Or.inl (h ▸ hx)
          · exact Or.inr h
      · simp only [if_neg hx, List.mem_append, List.mem_singleton, List.mem_cons]
        tauto

theorem jsUniq_mem (i : Nat) (l : List Nat) : i ∈ jsUniq l ↔ i ∈ l := by
  unfold jsUniq
  rw [jsUniq_aux]
  simp

theorem jsCompactIds_mem (i : Nat) (l : List (Option Nat)) :
    i ∈ jsCompactIds l ↔ some i ∈ l ∧ i ≠ 0 := by
  unfold jsCompactIds
  rw [List.mem_filterMap]
  constructor
  · rintro ⟨a, ha, hg⟩
    match a with
    | none => simp at hg
    | some n =>
        by_cases hn : n = 0
        · simp [hn] at hg
        · simp only [if_neg hn, Option.some.injEq] at hg
          exact ⟨hg ▸ ha, hg ▸ hn⟩
  · rintro ⟨hmem, hne⟩
    exact ⟨some i, hmem, by simp [hne]⟩

theorem sizeIds_mem (store : Store) (f : Filters) (i : Nat) :
    i ∈ sizeIds store f ↔
      i ≠ 0 ∧ ∃ r ∈ store.sizes,
        (buildSizeFilters f).all (sizeRowMatches r) = true ∧
        r.board_model_id = some i := by
  unfold sizeIds
  rw [jsUniq_mem, jsCompactIds_mem, List.mem_map]
  constructor
  · rintro ⟨⟨r, hr, hid⟩, hne⟩
    rw [List.mem_filter] at hr
    exact ⟨hne, r, hr.1, hr.2, hid⟩
  · rintro ⟨hne, r, hr, hall, hid⟩
    exact ⟨⟨r, List.mem_filter.mpr ⟨hr, hall⟩, hid⟩, hne⟩

theorem abilityRaw_mem (store : Store) (f : Filters) (i : Nat) :
    i ∈ abilityRaw store f ↔
      i ≠ 0 ∧ ∃ j ∈ store.abilityJunction,
        j.ability_level_id ∈ f.abilityLevelIds ∧ j.board_model_id = i := by
  unfold abilityRaw
  rw [jsUniq_mem, List.mem_filter, List.mem_map]
  constructor
  · rintro ⟨⟨j, hj, hid⟩, hne⟩
    rw [List.mem_filter] at hj
    refine ⟨by simpa using hne, j, hj.1, by simpa using hj.2, hid⟩
  · rintro ⟨hne, j, hj, hsel, hid⟩
    exact ⟨⟨j, List.mem_filter.mpr ⟨hj, by simpa using hsel⟩, hid⟩, by simpa using hne⟩

theorem terrainRaw_mem (store : Store) (f : Filters) (i : Nat) :
    i ∈ terrainRaw store f ↔
      i ≠ 0 ∧ ∃ j ∈ store.terrainJunction,
        j.terrain_type_id ∈ f.terrainTypeIds ∧ j.board_model_id = i := by
  unfold terrainRaw
  rw [jsUniq_mem, List.mem_filter, List.mem_map]
  constructor
  · rintro ⟨⟨j, hj, hid⟩, hne⟩
    rw [List.mem_filter] at hj
    refine ⟨by simpa using hne, j, hj.1, by simpa using hj.2, hid⟩
  · rintro ⟨hne, j, hj, hsel, hid⟩
    exact ⟨⟨j, List.mem_filter.mpr ⟨hj, by simpa using hsel⟩, hid⟩, by simpa using hne⟩

theorem intersectOpt_mem (r : Option (List Nat)) (raw : List Nat) (i : Nat) :
    i ∈ intersectOpt r raw ↔ memOpt r i ∧ i ∈ raw := by
  match r with
  | some ids => simp [intersectOpt, memOpt, List.mem_filter]
  | none => simp [intersectOpt, memOpt]

theorem intersectOpt_nil (r : Option (List Nat)) : intersectOpt r [] = [] := by
  match r with
  | some ids => simp [intersectOpt]
  | none => rfl

/-- The resolved restriction, characterized stage-free: an id is allowed
iff it survives every constrained multi-row facet. -/
theorem memOpt_afterTerrain (store : Store) (f : Filters) (i : Nat) :
    memOpt (afterTerrain store f) i ↔
      (hasSizeFilters f = true → i ∈ sizeIds store f) ∧
      (f.abilityLevelIds ≠ [] → i ∈ abilityRaw store f) ∧
      (f.terrainTypeIds ≠ [] → i ∈ terrainRaw store f) := by
  unfold afterTerrain terrainStep abilityStep afterSize
  by_cases ht : f.terrainTypeIds = [] <;>
    by_cases ha : f.abilityLevelIds = [] <;>
      by_cases hs : hasSizeFilters f <;>
        simp [ht, ha, hs, memOpt, intersectOpt_mem] <;> tauto

theorem rowPasses_some_nil (store : Store) (f : Filters) (s : String)
    (row : CatalogRow) : rowPasses store f s (some []) row = false := by
  simp [rowPasses, buildMainFilters, restrictionFilters, rowMatchesMain]

theorem count_some_nil (store : Store) (f : Filters) (s : String) :
    (store.catalog.filter (rowPasses store f s (some []))).length = 0 := by
  rw [List.length_eq_zero, List.filter_eq_nil_iff]
  intro row _
  simp [rowPasses_some_nil]

theorem runMain_count (store : Store) (f : Filters) (s : String) (page : Nat)
    (r : Option (List Nat)) (log : List QueryTag) :
    (runMain store f s page noFailures r log).1.totalCount =
      (store.catalog.filter (rowPasses store f s r)).length := by
  simp [runMain, noFailures]

theorem continueTerrain_count (store : Store) (f : Filters) (s : String)
    (page : Nat) (r : Option (List Nat)) (log : List QueryTag) :
    (continueTerrain store f s page noFailures r log).1.totalCount =
      (store.catalog.filter (rowPasses store f s (terrainStep store f r))).length := by
  unfold continueTerrain terrainStep
  by_cases ht : f.terrainTypeIds = []
  · rw [if_pos ht, if_pos ht, runMain_count]
  · rw [if_neg ht, if_neg ht]
    rw [if_neg (show ((noFailures).terrainFail = true) → False by simp [noFailures])]
    by_cases hraw : terrainRaw store f = []
    · rw [if_pos hraw, hraw, intersectOpt_nil]
      simp [emptyState, count_some_nil]
    · rw [if_neg hraw]
      cases r with
      | none =>
          simp only []
          rw [runMain_count]
          rfl
      | some ids =>
          simp only []
          by_cases hint : ids.filter (fun i => decide (i ∈ terrainRaw store f)) = []
          · rw [if_pos hint]
            rw [show intersectOpt (some ids) (terrainRaw store f) =
                  ids.filter (fun i => decide (i ∈ terrainRaw store f)) from rfl, hint]
            exact (count_some_nil store f s).symm
          · rw [if_neg hint, runMain_count]
            rfl

theorem continueAbility_count (store : Store) (f : Filters) (s : String)
    (page : Nat) (r : Option (List Nat)) (log : List QueryTag) :
    (continueAbility store f s page noFailures r log).1.totalCount =
      (store.catalog.filter
        (rowPasses store f s (terrainStep store f (abilityStep store f r)))).length := by
  unfold continueAbility abilityStep
  by_cases ha : f.abilityLevelIds = []
  · rw [if_pos ha, if_pos ha, continueTerrain_count]
  · rw [if_neg ha, if_neg ha]
    rw [if_neg (show ((noFailures).abilityFail = true) → False by simp [noFailures])]
    by_cases hraw : abilityRaw store f = []
    · rw [if_pos hraw, hraw, intersectOpt_nil]
      have : terrainStep store f (some []) = some [] ∨
          terrainStep store f (some []) =
            some ((List.nil : List Nat).filter (fun i => decide (i ∈ terrainRaw store f))) := by
        unfold terrainStep
        by_cases ht : f.terrainTypeIds = []
        · left; rw [if_pos ht]
        · right; rw [if_neg ht]; rfl
      rcases this with h | h
      · simp [emptyState, h, count_some_nil]
      · simp only [List.filter_nil] at h
        simp [emptyState, h, count_some_nil]
    · rw [if_neg hraw]
      cases r with
      | none =>
          simp only []
          rw [continueTerrain_count]
          rfl
      | some ids =>
          simp only []
          by_cases hint : ids.filter (fun i => decide (i ∈ abilityRaw store f)) = []
          · rw [if_pos hint]
            rw [show intersectOpt (some ids) (abilityRaw store f) =
                  ids.filter (fun i => decide (i ∈ abilityRaw store f)) from rfl, hint]
            have hts : terrainStep store f (some []) = some [] := by
              unfold terrainStep
              by_cases ht : f.terrainTypeIds = []
              · rw [if_pos ht]
              · rw [if_neg ht]; simp [intersectOpt]
            rw [hts]
            exact (count_some_nil store f s).symm
          · rw [if_neg hint, continueTerrain_count]
            rfl

/-- The count a successful `fetchSnowboards` run reports equals the
reference count over the fully resolved restriction, short-circuits
included. -/
theorem pipelineCount_eq (store : Store) (f : Filters) (s : String)
    (page : Nat) : pipelineCount store f s page = countModel store f s := by
  unfold pipelineCount countModel fetchSnowboards afterTerrain afterSize
  by_cases hs : hasSizeFilters f
  · rw [if_pos hs, if_pos hs]
    rw [if_neg (show ((noFailures).sizeFail = true) → False by simp [noFailures])]
    by_cases hids : sizeIds store f = []
    · rw [if_pos hids, hids]
      have h1 : abilityStep store f (some []) = some [] := by
        unfold abilityStep
        by_cases ha : f.abilityLevelIds = []
        · rw [if_pos ha]
        · rw [if_neg ha]; simp [intersectOpt]
      have h2 : terrainStep store f (some []) = some [] := by
        unfold terrainStep
        by_cases ht : f.terrainTypeIds = []
        · rw [if_pos ht]
        · rw [if_neg ht]; simp [intersectOpt]
      rw [h1, h2]
      simp [emptyState, count_some_nil]
    · rw [if_neg hids, continueAbility_count]
  · rw [if_neg hs, if_neg hs, continueAbility_count]

theorem rowPasses_split (store : Store) (f : Filters) (s : String)
    (r : Option (List Nat)) (row : CatalogRow) :
    rowPasses store f s r row = true ↔
      memOpt r row.id ∧
      (buildSingleFilters store f s).all (rowMatchesMain row) = true := by
  unfold rowPasses buildMainFilters
  rw [List.all_append, Bool.and_eq_true]
  constructor
  · rintro ⟨h1, h2⟩
    refine ⟨?_, h2⟩
    cases r with
    | none => trivial
    | some ids => simpa [restrictionFilters, rowMatchesMain] using h1
  · rintro ⟨h1, h2⟩
    refine ⟨?_, h2⟩
    cases r with
    | none => simp [restrictionFilters]
    | some ids => simpa [restrictionFilters, rowMatchesMain] using h1

theorem bool_imp_le {p q : Bool} (h : p = true → q = true) : p ≤ q := by
  cases p
  · exact Bool.false_le q
  · rw [h rfl]

/-- Master monotonicity lemma: if the strengthened filter state restricts
ids at least as much and its non-id predicates imply the weaker ones
row-wise, the reported population count cannot grow. -/
theorem countModel_mono (store : Store) (s : String) (f f' : Filters)
    (Hmem : ∀ i, memOpt (afterTerrain store f') i → memOpt (afterTerrain store f) i)
    (Hsingle : ∀ row : CatalogRow,
      (buildSingleFilters store f' s).all (rowMatchesMain row) = true →
      (buildSingleFilters store f s).all (rowMatchesMain row) = true) :
    countModel store f' s ≤ countModel store f s := by
  unfold countModel
  refine List.Sublist.length_le (List.monotone_filter_right store.catalog ?_)
  intro row
  refine bool_imp_le (fun h => ?_)
  rw [rowPasses_split] at h ⊢
  exact ⟨Hmem row.id h.1, Hsingle row h.2⟩

theorem abilityRaw_congr (store : Store) (f f' : Filters)
    (h : f'.abilityLevelIds = f.abilityLevelIds) :
    abilityRaw store f' = abilityRaw store f := by
  unfold abilityRaw
  rw [h]

theorem terrainRaw_congr (store : Store) (f f' : Filters)
    (h : f'.terrainTypeIds = f.terrainTypeIds) :
    terrainRaw store f' = terrainRaw store f := by
  unfold terrainRaw
  rw [h]

/-- Componentwise monotonicity of the resolved restriction. -/
theorem afterTerrain_mono (store : Store) (f f' : Filters)
    (Hh : hasSizeFilters f = true → hasSizeFilters f' = true)
    (Hs : ∀ i, i ∈ sizeIds store f' → i ∈ sizeIds store f)
    (Hab : f.abilityLevelIds = [] ∨ f'.abilityLevelIds = f.abilityLevelIds)
    (Hter : f.terrainTypeIds = [] ∨ f'.terrainTypeIds = f.terrainTypeIds) :
    ∀ i, memOpt (afterTerrain store f') i → memOpt (afterTerrain store f) i := by
  intro i h
  rw [memOpt_afterTerrain] at h ⊢
  obtain ⟨h1, h2, h3⟩ := h
  refine ⟨fun hsz => Hs i (h1 (Hh hsz)), fun hab => ?_, fun hter => ?_⟩
  · rcases Hab with he | he
    · exact absurd he hab
    · rw [← abilityRaw_congr store f f' he]
      exact h2 (he ▸ hab)
  · rcases Hter with he | he
    · exact absurd he hter
    · rw [← terrainRaw_congr store f f' he]
      exact h3 (he ▸ hter)

theorem sizeIds_mono (store : Store) (f f' : Filters)
    (Hp : ∀ r : SizeRow,
      (buildSizeFilters f').all (sizeRowMatches r) = true →
      (buildSizeFilters f).all (sizeRowMatches r) = true) :
    ∀ i, i ∈ sizeIds store f' → i ∈ sizeIds store f := by
  intro i h
  rw [sizeIds_mem] at h ⊢
  obtain ⟨hne, r, hr, hall, hid⟩ := h
  exact ⟨hne, r, hr, Hp r hall, hid⟩

theorem all_mono_of_subset {α : Type} {l l' : List α} {p : α → Bool}
    (hsub : ∀ x ∈ l, x ∈ l') (h : l'.all p = true) : l.all p = true := by
  rw [List.all_eq_true] at h ⊢
  exact fun x hx => h x (hsub x hx)

theorem all_mono_of_sublist {α : Type} {l l' : List α} {p : α → Bool}
    (hsub : List.Sublist l l') (h : l'.all p = true) : l.all p = true := by
  rw [List.all_eq_true] at h ⊢
  exact fun x hx => h x (hsub.subset hx)

theorem add_sizeMin_sublist (f : Filters) (v : ℚ) (h : f.sizeMin = none) :
    List.Sublist (buildSizeFilters f) (buildSizeFilters ({ f with sizeMin := some v })) := by
  unfold buildSizeFilters
  rw [h]
  exact List.Sublist.append
    (List.Sublist.append
    (List.Sublist.append
    (List.Sublist.append
    (List.Sublist.append
    (List.Sublist.append
    (List.Sublist.append
    (List.Sublist.append
    (List.Sublist.append
    (List.Sublist.append
    (List.Sublist.append
    (List.Sublist.append
    (List.Sublist.append
    (List.Sublist.append
    (List.Sublist.append
    (List.Sublist.append
    (List.Sublist.append
    (List.Sublist.append
    (List.Sublist.append
    (List.Sublist.append
    (List.Sublist.append
    (List.Sublist.append
    (List.Sublist.append
    (List.Sublist.append
    (List.nil_sublist _)
    (List.Sublist.refl _))
    (List.Sublist.refl _))
    (List.Sublist.refl _))
    (List.Sublist.refl _))
    (List.Sublist.refl _))
    (List.Sublist.refl _))
    (List.Sublist.refl _))
    (List.Sublist.refl _))
    (List.Sublist.refl _))
    (List.Sublist.refl _))
    (List.Sublist.refl _))
    (List.Sublist.refl _))
    (List.Sublist.refl _))
    (List.Sublist.refl _))
    (List.Sublist.refl _))
    (List.Sublist.refl _))
    (List.Sublist.refl _))
    (List.Sublist.refl _))
    (List.Sublist.refl _))
    (List.Sublist.refl _))
    (List.Sublist.refl _))
    (List.Sublist.refl _))
    (List.Sublist.refl _))
    (List.Sublist.refl _)

theorem add_sizeMax_sublist (f : Filters) (v : ℚ) (h : f.sizeMax = none) :
    List.Sublist (buildSizeFilters f) (buildSizeFilters ({ f with sizeMax := some v })) := by
  unfold buildSizeFilters
  rw [h]
  exact List.Sublist.append
    (List.Sublist.append
    (List.Sublist.append
    (List.Sublist.append
    (List.Sublist.append
    (List.Sublist.append
    (List.Sublist.append
    (List.Sublist.append
    (List.Sublist.append
    (List.Sublist.append
    (List.Sublist.append
    (List.Sublist.append
    (List.Sublist.append
    (List.Sublist.append
    (List.Sublist.append
    (List.Sublist.append
    (List.Sublist.append
    (List.Sublist.append
    (List.Sublist.append
    (List.Sublist.append
    (List.Sublist.append
    (List.Sublist.append
    (List.Sublist.append
    (List.Sublist.append
    (List.Sublist.refl _)
    (List.nil_sublist _))
    (List.Sublist.refl _))
    (List.Sublist.refl _))
    (List.Sublist.refl _))
    (List.Sublist.refl _))
    (List.Sublist.refl _))
    (List.Sublist.refl _))
    (List.Sublist.refl _))
    (List.Sublist.refl _))
    (List.Sublist.refl _))
    (List.Sublist.refl _))
    (List.Sublist.refl _))
    (List.Sublist.refl _))
    (List.Sublist.refl _))
    (List.Sublist.refl _))
    (List.Sublist.refl _))
    (List.Sublist.refl _))
    (List.Sublist.refl _))
    (List.Sublist.refl _))
    (List.Sublist.refl _))
    (List.Sublist.refl _))
    (List.Sublist.refl _))
    (List.Sublist.refl _))
    (List.Sublist.refl _)

theorem add_waistWidthMin_sublist (f : Filters) (v : ℚ) (h : f.waistWidthMin = none) :
    List.Sublist (buildSizeFilters f) (buildSizeFilters ({ f with waistWidthMin := some v })) := by
  unfold buildSizeFilters
  rw [h]
  exact List.Sublist.append
    (List.Sublist.append
    (List.Sublist.append
    (List.Sublist.append
    (List.Sublist.append
    (List.Sublist.append
    (List.Sublist.append
    (List.Sublist.append
    (List.Sublist.append
    (List.Sublist.append
    (List.Sublist.append
    (List.Sublist.append
    (List.Sublist.append
    (List.Sublist.append
    (List.Sublist.append
    (List.Sublist.append
    (List.Sublist.append
    (List.Sublist.append
    (List.Sublist.append
    (List.Sublist.append
    (List.Sublist.append
    (List.Sublist.append
    (List.Sublist.append
    (List.Sublist.append
    (List.Sublist.refl _)
    (List.Sublist.refl _))
    (List.nil_sublist _))
    (List.Sublist.refl _))
    (List.Sublist.refl _))
    (List.Sublist.refl _))
    (List.Sublist.refl _))
    (List.Sublist.refl _))
    (List.Sublist.refl _))
    (List.Sublist.refl _))
    (List.Sublist.refl _))
    (List.Sublist.refl _))
    (List.Sublist.refl _))
    (List.Sublist.refl _))
    (List.Sublist.refl _))
    (List.Sublist.refl _))
    (List.Sublist.refl _))
    (List.Sublist.refl _))
    (List.Sublist.refl _))
    (List.Sublist.refl _))
    (List.Sublist.refl _))
    (List.Sublist.refl _))
    (List.Sublist.refl _))
    (List.Sublist.refl _))
    (List.Sublist.refl _)

theorem add_waistWidthMax_sublist (f : Filters) (v : ℚ) (h : f.waistWidthMax = none) :
    List.Sublist (buildSizeFilters f) (buildSizeFilters ({ f with waistWidthMax := some v })) := by
  unfold buildSizeFilters
  rw [h]
  exact List.Sublist.append
    (List.Sublist.append
    (List.Sublist.append
    (List.Sublist.append
    (List.Sublist.append
    (List.Sublist.append
    (List.Sublist.append
    (List.Sublist.append
    (List.Sublist.append
    (List.Sublist.append
    (List.Sublist.append
    (List.Sublist.append
    (List.Sublist.append
    (List.Sublist.append
    (List.Sublist.append
    (List.Sublist.append
    (List.Sublist.append
    (List.Sublist.append
    (List.Sublist.append
    (List.Sublist.append
    (List.Sublist.append
    (List.Sublist.append
    (List.Sublist.append
    (List.Sublist.append
    (List.Sublist.refl _)
    (List.Sublist.refl _))
    (List.Sublist.refl _))
    (List.nil_sublist _))
    (List.Sublist.refl _))
    (List.Sublist.refl _))
    (List.Sublist.refl _))
    (List.Sublist.refl _))
    (List.Sublist.refl _))
    (List.Sublist.refl _))
    (List.Sublist.refl _))
    (List.Sublist.refl _))
    (List.Sublist.refl _))
    (List.Sublist.refl _))
    (List.Sublist.refl _))
    (List.Sublist.refl _))
    (List.Sublist.refl _))
    (List.Sublist.refl _))
    (List.Sublist.refl _))
    (List.Sublist.refl _))
    (List.Sublist.refl _))
    (List.Sublist.refl _))
    (List.Sublist.refl _))
    (List.Sublist.refl _))
    (List.Sublist.refl _)

theorem add_tipWidthMin_sublist (f : Filters) (v : ℚ) (h : f.tipWidthMin = none) :
    List.Sublist (buildSizeFilters f) (buildSizeFilters ({ f with tipWidthMin := some v })) := by
  unfold buildSizeFilters
  rw [h]
  exact List.Sublist.append
    (List.Sublist.append
    (List.Sublist.append
    (List.Sublist.append
    (List.Sublist.append
    (List.Sublist.append
    (List.Sublist.append
    (List.Sublist.append
    (List.Sublist.append
    (List.Sublist.append
    (List.Sublist.append
    (List.Sublist.append
    (List.Sublist.append
    (List.Sublist.append
    (List.Sublist.append
    (List.Sublist.append
    (List.Sublist.append
    (List.Sublist.append
    (List.Sublist.append
    (List.Sublist.append
    (List.Sublist.append
    (List.Sublist.append
    (List.Sublist.append
    (List.Sublist.append
    (List.Sublist.refl _)
    (List.Sublist.refl _))
    (List.Sublist.refl _))
    (List.Sublist.refl _))
    (List.nil_sublist _))
    (List.Sublist.refl _))
    (List.Sublist.refl _))
    (List.Sublist.refl _))
    (List.Sublist.refl _))
    (List.Sublist.refl _))
    (List.Sublist.refl _))
    (List.Sublist.refl _))
    (List.Sublist.refl _))
    (List.Sublist.refl _))
    (List.Sublist.refl _))
    (List.Sublist.refl _))
    (List.Sublist.refl _))
    (List.Sublist.refl _))
    (List.Sublist.refl _))
    (List.Sublist.refl _))
    (List.Sublist.refl _))
    (List.Sublist.refl _))
    (List.Sublist.refl _))
    (List.Sublist.refl _))
    (List.Sublist.refl _)

theorem add_tipWidthMax_sublist (f : Filters) (v : ℚ) (h : f.tipWidthMax = none) :
    List.Sublist (buildSizeFilters f) (buildSizeFilters ({ f with tipWidthMax := some v })) := by
  unfold buildSizeFilters
  rw [h]
  exact List.Sublist.append
    (List.Sublist.append
    (List.Sublist.append
    (List.Sublist.append
    (List.Sublist.append
    (List.Sublist.append
    (List.Sublist.append
    (List.Sublist.append
    (List.Sublist.append
    (List.Sublist.append
    (List.Sublist.append
    (List.Sublist.append
    (List.Sublist.append
    (List.Sublist.append
    (List.Sublist.append
    (List.Sublist.append
    (List.Sublist.append
    (List.Sublist.append
    (List.Sublist.append
    (List.Sublist.append
    (List.Sublist.append
    (List.Sublist.append
    (List.Sublist.append
    (List.Sublist.append
    (List.Sublist.refl _)
    (List.Sublist.refl _))
    (List.Sublist.refl _))
    (List.Sublist.refl _))
    (List.Sublist.refl _))
    (List.nil_sublist _))
    (List.Sublist.refl _))
    (List.Sublist.refl _))
    (List.Sublist.refl _))
    (List.Sublist.refl _))
    (List.Sublist.refl _))
    (List.Sublist.refl _))
    (List.Sublist.refl _))
    (List.Sublist.refl _))
    (List.Sublist.refl _))
    (List.Sublist.refl _))
    (List.Sublist.refl _))
    (List.Sublist.refl _))
    (List.Sublist.refl _))
    (List.Sublist.refl _))
    (List.Sublist.refl _))
    (List.Sublist.refl _))
    (List.Sublist.refl _))
    (List.Sublist.refl _))
    (List.Sublist.refl _)

theorem add_tailWidthMin_sublist (f : Filters) (v : ℚ) (h : f.tailWidthMin = none) :
    List.Sublist (buildSizeFilters f) (buildSizeFilters ({ f with tailWidthMin := some v })) := by
  unfold buildSizeFilters
  rw [h]
  exact List.Sublist.append
    (List.Sublist.append
    (List.Sublist.append
    (List.Sublist.append
    (List.Sublist.append
    (List.Sublist.append
    (List.Sublist.append
    (List.Sublist.append
    (List.Sublist.append
    (List.Sublist.append
    (List.Sublist.append
    (List.Sublist.append
    (List.Sublist.append
    (List.Sublist.append
    (List.Sublist.append
    (List.Sublist.append
    (List.Sublist.append
    (List.Sublist.append
    (List.Sublist.append
    (List.Sublist.append
    (List.Sublist.append
    (List.Sublist.append
    (List.Sublist.append
    (List.Sublist.append
    (List.Sublist.refl _)
    (List.Sublist.refl _))
    (List.Sublist.refl _))
    (List.Sublist.refl _))
    (List.Sublist.refl _))
    (List.Sublist.refl _))
    (List.nil_sublist _))
    (List.Sublist.refl _))
    (List.Sublist.refl _))
    (List.Sublist.refl _))
    (List.Sublist.refl _))
    (List.Sublist.refl _))
    (List.Sublist.refl _))
    (List.Sublist.refl _))
    (List.Sublist.refl _))
    (List.Sublist.refl _))
    (List.Sublist.refl _))
    (List.Sublist.refl _))
    (List.Sublist.refl _))
    (List.Sublist.refl _))
    (List.Sublist.refl _))
    (List.Sublist.refl _))
    (List.Sublist.refl _))
    (List.Sublist.refl _))
    (List.Sublist.refl _)

theorem add_tailWidthMax_sublist (f : Filters) (v : ℚ) (h : f.tailWidthMax = none) :
    List.Sublist (buildSizeFilters f) (buildSizeFilters ({ f with tailWidthMax := some v })) := by
  unfold buildSizeFilters
  rw [h]
  exact List.Sublist.append
    (List.Sublist.append
    (List.Sublist.append
    (List.Sublist.append
    (List.Sublist.append
    (List.Sublist.append
    (List.Sublist.append
    (List.Sublist.append
    (List.Sublist.append
    (List.Sublist.append
    (List.Sublist.append
    (List.Sublist.append
    (List.Sublist.append
    (List.Sublist.append
    (List.Sublist.append
    (List.Sublist.append
    (List.Sublist.append
    (List.Sublist.append
    (List.Sublist.append
    (List.Sublist.append
    (List.Sublist.append
    (List.Sublist.append
    (List.Sublist.append
    (List.Sublist.append
    (List.Sublist.refl _)
    (List.Sublist.refl _))
    (List.Sublist.refl _))
    (List.Sublist.refl _))
    (List.Sublist.refl _))
    (List.Sublist.refl _))
    (List.Sublist.refl _))
    (List.nil_sublist _))
    (List.Sublist.refl _))
    (List.Sublist.refl _))
    (List.Sublist.refl _))
    (List.Sublist.refl _))
    (List.Sublist.refl _))
    (List.Sublist.refl _))
    (List.Sublist.refl _))
    (List.Sublist.refl _))
    (List.Sublist.refl _))
    (List.Sublist.refl _))
    (List.Sublist.refl _))
    (List.Sublist.refl _))
    (List.Sublist.refl _))
    (List.Sublist.refl _))
    (List.Sublist.refl _))
    (List.Sublist.refl _))
    (List.Sublist.refl _)

theorem add_effectiveEdgeMin_sublist (f : Filters) (v : ℚ) (h : f.effectiveEdgeMin = none) :
    List.Sublist (buildSizeFilters f) (buildSizeFilters ({ f with effectiveEdgeMin := some v })) := by
  unfold buildSizeFilters
  rw [h]
  exact List.Sublist.append
    (List.Sublist.append
    (List.Sublist.append
    (List.Sublist.append
    (List.Sublist.append
    (List.Sublist.append
    (List.Sublist.append
    (List.Sublist.append
    (List.Sublist.append
    (List.Sublist.append
    (List.Sublist.append
    (List.Sublist.append
    (List.Sublist.append
    (List.Sublist.append
    (List.Sublist.append
    (List.Sublist.append
    (List.Sublist.append
    (List.Sublist.append
    (List.Sublist.append
    (List.Sublist.append
    (List.Sublist.append
    (List.Sublist.append
    (List.Sublist.append
    (List.Sublist.append
    (List.Sublist.refl _)
    (List.Sublist.refl _))
    (List.Sublist.refl _))
    (List.Sublist.refl _))
    (List.Sublist.refl _))
    (List.Sublist.refl _))
    (List.Sublist.refl _))
    (List.Sublist.refl _))
    (List.nil_sublist _))
    (List.Sublist.refl _))
    (List.Sublist.refl _))
    (List.Sublist.refl _))
    (List.Sublist.refl _))
    (List.Sublist.refl _))
    (List.Sublist.refl _))
    (List.Sublist.refl _))
    (List.Sublist.refl _))
    (List.Sublist.refl _))
    (List.Sublist.refl _))
    (List.Sublist.refl _))
    (List.Sublist.refl _))
    (List.Sublist.refl _))
    (List.Sublist.refl _))
    (List.Sublist.refl _))
    (List.Sublist.refl _)

theorem add_effectiveEdgeMax_sublist (f : Filters) (v : ℚ) (h : f.effectiveEdgeMax = none) :
    List.Sublist (buildSizeFilters f) (buildSizeFilters ({ f with effectiveEdgeMax := some v })) := by
  unfold buildSizeFilters
  rw [h]
  exact List.Sublist.append
    (List.Sublist.append
    (List.Sublist.append
    (List.Sublist.append
    (List.Sublist.append
    (List.Sublist.append
    (List.Sublist.append
    (List.Sublist.append
    (List.Sublist.append
    (List.Sublist.append
    (List.Sublist.append
    (List.Sublist.append
    (List.Sublist.append
    (List.Sublist.append
    (List.Sublist.append
    (List.Sublist.append
    (List.Sublist.append
    (List.Sublist.append
    (List.Sublist.append
    (List.Sublist.append
    (List.Sublist.append
    (List.Sublist.append
    (List.Sublist.append
    (List.Sublist.append
    (List.Sublist.refl _)
    (List.Sublist.refl _))
    (List.Sublist.refl _))
    (List.Sublist.refl _))
    (List.Sublist.refl _))
    (List.Sublist.refl _))
    (List.Sublist.refl _))
    (List.Sublist.refl _))
    (List.Sublist.refl _))
    (List.nil_sublist _))
    (List.Sublist.refl _))
    (List.Sublist.refl _))
    (List.Sublist.refl _))
    (List.Sublist.refl _))
    (List.Sublist.refl _))
    (List.Sublist.refl _))
    (List.Sublist.refl _))
    (List.Sublist.refl _))
    (List.Sublist.refl _))
    (List.Sublist.refl _))
    (List.Sublist.refl _))
    (List.Sublist.refl _))
    (List.Sublist.refl _))
    (List.Sublist.refl _))
    (List.Sublist.refl _)

theorem add_runningLengthMin_sublist (f : Filters) (v : ℚ) (h : f.runningLengthMin = none) :
    List.Sublist (buildSizeFilters f) (buildSizeFilters ({ f with runningLengthMin := some v })) := by
  unfold buildSizeFilters
  rw [h]
  exact List.Sublist.append
    (List.Sublist.append
    (List.Sublist.append
    (List.Sublist.append
    (List.Sublist.append
    (List.Sublist.append
    (List.Sublist.append
    (List.Sublist.append
    (List.Sublist.append
    (List.Sublist.append
    (List.Sublist.append
    (List.Sublist.append
    (List.Sublist.append
    (List.Sublist.append
    (List.Sublist.append
    (List.Sublist.append
    (List.Sublist.append
    (List.Sublist.append
    (List.Sublist.append
    (List.Sublist.append
    (List.Sublist.append
    (List.Sublist.append
    (List.Sublist.append
    (List.Sublist.append
    (List.Sublist.refl _)
    (List.Sublist.refl _))
    (List.Sublist.refl _))
    (List.Sublist.refl _))
    (List.Sublist.refl _))
    (List.Sublist.refl _))
    (List.Sublist.refl _))
    (List.Sublist.refl _))
    (List.Sublist.refl _))
    (List.Sublist.refl _))
    (List.nil_sublist _))
    (List.Sublist.refl _))
    (List.Sublist.refl _))
    (List.Sublist.refl _))
    (List.Sublist.refl _))
    (List.Sublist.refl _))
    (List.Sublist.refl _))
    (List.Sublist.refl _))
    (List.Sublist.refl _))
    (List.Sublist.refl _))
    (List.Sublist.refl _))
    (List.Sublist.refl _))
    (List.Sublist.refl _))
    (List.Sublist.refl _))
    (List.Sublist.refl _)

theorem add_runningLengthMax_sublist (f : Filters) (v : ℚ) (h : f.runningLengthMax = none) :
    List.Sublist (buildSizeFilters f) (buildSizeFilters ({ f with runningLengthMax := some v })) := by
  unfold buildSizeFilters
  rw [h]
  exact List.Sublist.append
    (List.Sublist.append
    (List.Sublist.append
    (List.Sublist.append
    (List.Sublist.append
    (List.Sublist.append
    (List.Sublist.append
    (List.Sublist.append
    (List.Sublist.append
    (List.Sublist.append
    (List.Sublist.append
    (List.Sublist.append
    (List.Sublist.append
    (List.Sublist.append
    (List.Sublist.append
    (List.Sublist.append
    (List.Sublist.append
    (List.Sublist.append
    (List.Sublist.append
    (List.Sublist.append
    (List.Sublist.append
    (List.Sublist.append
    (List.Sublist.append
    (List.Sublist.append
    (List.Sublist.refl _)
    (List.Sublist.refl _))
    (List.Sublist.refl _))
    (List.Sublist.refl _))
    (List.Sublist.refl _))
    (List.Sublist.refl _))
    (List.Sublist.refl _))
    (List.Sublist.refl _))
    (List.Sublist.refl _))
    (List.Sublist.refl _))
    (List.Sublist.refl _))
    (List.nil_sublist _))
    (List.Sublist.refl _))
    (List.Sublist.refl _))
    (List.Sublist.refl _))
    (List.Sublist.refl _))
    (List.Sublist.refl _))
    (List.Sublist.refl _))
    (List.Sublist.refl _))
    (List.Sublist.refl _))
    (List.Sublist.refl _))
    (List.Sublist.refl _))
    (List.Sublist.refl _))
    (List.Sublist.refl _))
    (List.Sublist.refl _)

theorem add_sidecutRadiusMin_sublist (f : Filters) (v : ℚ) (h : f.sidecutRadiusMin = none) :
    List.Sublist (buildSizeFilters f) (buildSizeFilters ({ f with sidecutRadiusMin := some v })) := by
  unfold buildSizeFilters
  rw [h]
  exact List.Sublist.append
    (List.Sublist.append
    (List.Sublist.append
    (List.Sublist.append
    (List.Sublist.append
    (List.Sublist.append
    (List.Sublist.append
    (List.Sublist.append
    (List.Sublist.append
    (List.Sublist.append
    (List.Sublist.append
    (List.Sublist.append
    (List.Sublist.append
    (List.Sublist.append
    (List.Sublist.append
    (List.Sublist.append
    (List.Sublist.append
    (List.Sublist.append
    (List.Sublist.append
    (List.Sublist.append
    (List.Sublist.append
    (List.Sublist.append
    (List.Sublist.append
    (List.Sublist.append
    (List.Sublist.refl _)
    (List.Sublist.refl _))
    (List.Sublist.refl _))
    (List.Sublist.refl _))
    (List.Sublist.refl _))
    (List.Sublist.refl _))
    (List.Sublist.refl _))
    (List.Sublist.refl _))
    (List.Sublist.refl _))
    (List.Sublist.refl _))
    (List.Sublist.refl _))
    (List.Sublist.refl _))
    (List.nil_sublist _))
    (List.Sublist.refl _))
    (List.Sublist.refl _))
    (List.Sublist.refl _))
    (List.Sublist.refl _))
    (List.Sublist.refl _))
    (List.Sublist.refl _))
    (List.Sublist.refl _))
    (List.Sublist.refl _))
    (List.Sublist.refl _))
    (List.Sublist.refl _))
    (List.Sublist.refl _))
    (List.Sublist.refl _)

theorem add_sidecutRadiusMax_sublist (f : Filters) (v : ℚ) (h : f.sidecutRadiusMax = none) :
    List.Sublist (buildSizeFilters f) (buildSizeFilters ({ f with sidecutRadiusMax := some v })) := by
  unfold buildSizeFilters
  rw [h]
  exact List.Sublist.append
    (List.Sublist.append
    (List.Sublist.append
    (List.Sublist.append
    (List.Sublist.append
    (List.Sublist.append
    (List.Sublist.append
    (List.Sublist.append
    (List.Sublist.append
    (List.Sublist.append
    (List.Sublist.append
    (List.Sublist.append
    (List.Sublist.append
    (List.Sublist.append
    (List.Sublist.append
    (List.Sublist.append
    (List.Sublist.append
    (List.Sublist.append
    (List.Sublist.append
    (List.Sublist.append
    (List.Sublist.append
    (List.Sublist.append
    (List.Sublist.append
    (List.Sublist.append
    (List.Sublist.refl _)
    (List.Sublist.refl _))
    (List.Sublist.refl _))
    (List.Sublist.refl _))
    (List.Sublist.refl _))
    (List.Sublist.refl _))
    (List.Sublist.refl _))
    (List.Sublist.refl _))
    (List.Sublist.refl _))
    (List.Sublist.refl _))
    (List.Sublist.refl _))
    (List.Sublist.refl _))
    (List.Sublist.refl _))
    (List.nil_sublist _))
    (List.Sublist.refl _))
    (List.Sublist.refl _))
    (List.Sublist.refl _))
    (List.Sublist.refl _))
    (List.Sublist.refl _))
    (List.Sublist.refl _))
    (List.Sublist.refl _))
    (List.Sublist.refl _))
    (List.Sublist.refl _))
    (List.Sublist.refl _))
    (List.Sublist.refl _)

theorem add_sidecutDepthMin_sublist (f : Filters) (v : ℚ) (h : f.sidecutDepthMin = none) :
    List.Sublist (buildSizeFilters f) (buildSizeFilters ({ f with sidecutDepthMin := some v })) := by
  unfold buildSizeFilters
  rw [h]
  exact List.Sublist.append
    (List.Sublist.append
    (List.Sublist.append
    (List.Sublist.append
    (List.Sublist.append
    (List.Sublist.append
    (List.Sublist.append
    (List.Sublist.append
    (List.Sublist.append
    (List.Sublist.append
    (List.Sublist.append
    (List.Sublist.append
    (List.Sublist.append
    (List.Sublist.append
    (List.Sublist.append
    (List.Sublist.append
    (List.Sublist.append
    (List.Sublist.append
    (List.Sublist.append
    (List.Sublist.append
    (List.Sublist.append
    (List.Sublist.append
    (List.Sublist.append
    (List.Sublist.append
    (List.Sublist.refl _)
    (List.Sublist.refl _))
    (List.Sublist.refl _))
    (List.Sublist.refl _))
    (List.Sublist.refl _))
    (List.Sublist.refl _))
    (List.Sublist.refl _))
    (List.Sublist.refl _))
    (List.Sublist.refl _))
    (List.Sublist.refl _))
    (List.Sublist.refl _))
    (List.Sublist.refl _))
    (List.Sublist.refl _))
    (List.Sublist.refl _))
    (List.nil_sublist _))
    (List.Sublist.refl _))
    (List.Sublist.refl _))
    (List.Sublist.refl _))
    (List.Sublist.refl _))
    (List.Sublist.refl _))
    (List.Sublist.refl _))
    (List.Sublist.refl _))
    (List.Sublist.refl _))
    (List.Sublist.refl _))
    (List.Sublist.refl _)

theorem add_sidecutDepthMax_sublist (f : Filters) (v : ℚ) (h : f.sidecutDepthMax = none) :
    List.Sublist (buildSizeFilters f) (buildSizeFilters ({ f with sidecutDepthMax := some v })) := by
  unfold buildSizeFilters
  rw [h]
  exact List.Sublist.append
    (List.Sublist.append
    (List.Sublist.append
    (List.Sublist.append
    (List.Sublist.append
    (List.Sublist.append
    (List.Sublist.append
    (List.Sublist.append
    (List.Sublist.append
    (List.Sublist.append
    (List.Sublist.append
    (List.Sublist.append
    (List.Sublist.append
    (List.Sublist.append
    (List.Sublist.append
    (List.Sublist.append
    (List.Sublist.append
    (List.Sublist.append
    (List.Sublist.append
    (List.Sublist.append
    (List.Sublist.append
    (List.Sublist.append
    (List.Sublist.append
    (List.Sublist.append
    (List.Sublist.refl _)
    (List.Sublist.refl _))
    (List.Sublist.refl _))
    (List.Sublist.refl _))
    (List.Sublist.refl _))
    (List.Sublist.refl _))
    (List.Sublist.refl _))
    (List.Sublist.refl _))
    (List.Sublist.refl _))
    (List.Sublist.refl _))
    (List.Sublist.refl _))
    (List.Sublist.refl _))
    (List.Sublist.refl _))
    (List.Sublist.refl _))
    (List.Sublist.refl _))
    (List.nil_sublist _))
    (List.Sublist.refl _))
    (List.Sublist.refl _))
    (List.Sublist.refl _))
    (List.Sublist.refl _))
    (List.Sublist.refl _))
    (List.Sublist.refl _))
    (List.Sublist.refl _))
    (List.Sublist.refl _))
    (List.Sublist.refl _)

theorem add_minStanceMin_sublist (f : Filters) (v : ℚ) (h : f.minStanceMin = none) :
    List.Sublist (buildSizeFilters f) (buildSizeFilters ({ f with minStanceMin := some v })) := by
  unfold buildSizeFilters
  rw [h]
  exact List.Sublist.append
    (List.Sublist.append
    (List.Sublist.append
    (List.Sublist.append
    (List.Sublist.append
    (List.Sublist.append
    (List.Sublist.append
    (List.Sublist.append
    (List.Sublist.append
    (List.Sublist.append
    (List.Sublist.append
    (List.Sublist.append
    (List.Sublist.append
    (List.Sublist.append
    (List.Sublist.append
    (List.Sublist.append
    (List.Sublist.append
    (List.Sublist.append
    (List.Sublist.append
    (List.Sublist.append
    (List.Sublist.append
    (List.Sublist.append
    (List.Sublist.append
    (List.Sublist.append
    (List.Sublist.refl _)
    (List.Sublist.refl _))
    (List.Sublist.refl _))
    (List.Sublist.refl _))
    (List.Sublist.refl _))
    (List.Sublist.refl _))
    (List.Sublist.refl _))
    (List.Sublist.refl _))
    (List.Sublist.refl _))
    (List.Sublist.refl _))
    (List.Sublist.refl _))
    (List.Sublist.refl _))
    (List.Sublist.refl _))
    (List.Sublist.refl _))
    (List.Sublist.refl _))
    (List.Sublist.refl _))
    (List.nil_sublist _))
    (List.Sublist.refl _))
    (List.Sublist.refl _))
    (List.Sublist.refl _))
    (List.Sublist.refl _))
    (List.Sublist.refl _))
    (List.Sublist.refl _))
    (List.Sublist.refl _))
    (List.Sublist.refl _)

theorem add_minStanceMax_sublist (f : Filters) (v : ℚ) (h : f.minStanceMax = none) :
    List.Sublist (buildSizeFilters f) (buildSizeFilters ({ f with minStanceMax := some v })) := by
  unfold buildSizeFilters
  rw [h]
  exact List.Sublist.append
    (List.Sublist.append
    (List.Sublist.append
    (List.Sublist.append
    (List.Sublist.append
    (List.Sublist.append
    (List.Sublist.append
    (List.Sublist.append
    (List.Sublist.append
    (List.Sublist.append
    (List.Sublist.append
    (List.Sublist.append
    (List.Sublist.append
    (List.Sublist.append
    (List.Sublist.append
    (List.Sublist.append
    (List.Sublist.append
    (List.Sublist.append
    (List.Sublist.append
    (List.Sublist.append
    (List.Sublist.append
    (List.Sublist.append
    (List.Sublist.append
    (List.Sublist.append
    (List.Sublist.refl _)
    (List.Sublist.refl _))
    (List.Sublist.refl _))
    (List.Sublist.refl _))
    (List.Sublist.refl _))
    (List.Sublist.refl _))
    (List.Sublist.refl _))
    (List.Sublist.refl _))
    (List.Sublist.refl _))
    (List.Sublist.refl _))
    (List.Sublist.refl _))
    (List.Sublist.refl _))
    (List.Sublist.refl _))
    (List.Sublist.refl _))
    (List.Sublist.refl _))
    (List.Sublist.refl _))
    (List.Sublist.refl _))
    (List.nil_sublist _))
    (List.Sublist.refl _))
    (List.Sublist.refl _))
    (List.Sublist.refl _))
    (List.Sublist.refl _))
    (List.Sublist.refl _))
    (List.Sublist.refl _))
    (List.Sublist.refl _)

theorem add_maxStanceMin_sublist (f : Filters) (v : ℚ) (h : f.maxStanceMin = none) :
    List.Sublist (buildSizeFilters f) (buildSizeFilters ({ f with maxStanceMin := some v })) := by
  unfold buildSizeFilters
  rw [h]
  exact List.Sublist.append
    (List.Sublist.append
    (List.Sublist.append
    (List.Sublist.append
    (List.Sublist.append
    (List.Sublist.append
    (List.Sublist.append
    (List.Sublist.append
    (List.Sublist.append
    (List.Sublist.append
    (List.Sublist.append
    (List.Sublist.append
    (List.Sublist.append
    (List.Sublist.append
    (List.Sublist.append
    (List.Sublist.append
    (List.Sublist.append
    (List.Sublist.append
    (List.Sublist.append
    (List.Sublist.append
    (List.Sublist.append
    (List.Sublist.append
    (List.Sublist.append
    (List.Sublist.append
    (List.Sublist.refl _)
    (List.Sublist.refl _))
    (List.Sublist.refl _))
    (List.Sublist.refl _))
    (List.Sublist.refl _))
    (List.Sublist.refl _))
    (List.Sublist.refl _))
    (List.Sublist.refl _))
    (List.Sublist.refl _))
    (List.Sublist.refl _))
    (List.Sublist.refl _))
    (List.Sublist.refl _))
    (List.Sublist.refl _))
    (List.Sublist.refl _))
    (List.Sublist.refl _))
    (List.Sublist.refl _))
    (List.Sublist.refl _))
    (List.Sublist.refl _))
    (List.nil_sublist _))
    (List.Sublist.refl _))
    (List.Sublist.refl _))
    (List.Sublist.refl _))
    (List.Sublist.refl _))
    (List.Sublist.refl _))
    (List.Sublist.refl _)

theorem add_maxStanceMax_sublist (f : Filters) (v : ℚ) (h : f.maxStanceMax = none) :
    List.Sublist (buildSizeFilters f) (buildSizeFilters ({ f with maxStanceMax := some v })) := by
  unfold buildSizeFilters
  rw [h]
  exact List.Sublist.append
    (List.Sublist.append
    (List.Sublist.append
    (List.Sublist.append
    (List.Sublist.append
    (List.Sublist.append
    (List.Sublist.append
    (List.Sublist.append
    (List.Sublist.append
    (List.Sublist.append
    (List.Sublist.append
    (List.Sublist.append
    (List.Sublist.append
    (List.Sublist.append
    (List.Sublist.append
    (List.Sublist.append
    (List.Sublist.append
    (List.Sublist.append
    (List.Sublist.append
    (List.Sublist.append
    (List.Sublist.append
    (List.Sublist.append
    (List.Sublist.append
    (List.Sublist.append
    (List.Sublist.refl _)
    (List.Sublist.refl _))
    (List.Sublist.refl _))
    (List.Sublist.refl _))
    (List.Sublist.refl _))
    (List.Sublist.refl _))
    (List.Sublist.refl _))
    (List.Sublist.refl _))
    (List.Sublist.refl _))
    (List.Sublist.refl _))
    (List.Sublist.refl _))
    (List.Sublist.refl _))
    (List.Sublist.refl _))
    (List.Sublist.refl _))
    (List.Sublist.refl _))
    (List.Sublist.refl _))
    (List.Sublist.refl _))
    (List.Sublist.refl _))
    (List.Sublist.refl _))
    (List.nil_sublist _))
    (List.Sublist.refl _))
    (List.Sublist.refl _))
    (List.Sublist.refl _))
    (List.Sublist.refl _))
    (List.Sublist.refl _)

theorem add_setbackMin_sublist (f : Filters) (v : ℚ) (h : f.setbackMin = none) :
    List.Sublist (buildSizeFilters f) (buildSizeFilters ({ f with setbackMin := some v })) := by
  unfold buildSizeFilters
  rw [h]
  exact List.Sublist.append
    (List.Sublist.append
    (List.Sublist.append
    (List.Sublist.append
    (List.Sublist.append
    (List.Sublist.append
    (List.Sublist.append
    (List.Sublist.append
    (List.Sublist.append
    (List.Sublist.append
    (List.Sublist.append
    (List.Sublist.append
    (List.Sublist.append
    (List.Sublist.append
    (List.Sublist.append
    (List.Sublist.append
    (List.Sublist.append
    (List.Sublist.append
    (List.Sublist.append
    (List.Sublist.append
    (List.Sublist.append
    (List.Sublist.append
    (List.Sublist.append
    (List.Sublist.append
    (List.Sublist.refl _)
    (List.Sublist.refl _))
    (List.Sublist.refl _))
    (List.Sublist.refl _))
    (List.Sublist.refl _))
    (List.Sublist.refl _))
    (List.Sublist.refl _))
    (List.Sublist.refl _))
    (List.Sublist.refl _))
    (List.Sublist.refl _))
    (List.Sublist.refl _))
    (List.Sublist.refl _))
    (List.Sublist.refl _))
    (List.Sublist.refl _))
    (List.Sublist.refl _))
    (List.Sublist.refl _))
    (List.Sublist.refl _))
    (List.Sublist.refl _))
    (List.Sublist.refl _))
    (List.Sublist.refl _))
    (List.nil_sublist _))
    (List.Sublist.refl _))
    (List.Sublist.refl _))
    (List.Sublist.refl _))
    (List.Sublist.refl _)

theorem add_setbackMax_sublist (f : Filters) (v : ℚ) (h : f.setbackMax = none) :
    List.Sublist (buildSizeFilters f) (buildSizeFilters ({ f with setbackMax := some v })) := by
  unfold buildSizeFilters
  rw [h]
  exact List.Sublist.append
    (List.Sublist.append
    (List.Sublist.append
    (List.Sublist.append
    (List.Sublist.append
    (List.Sublist.append
    (List.Sublist.append
    (List.Sublist.append
    (List.Sublist.append
    (List.Sublist.append
    (List.Sublist.append
    (List.Sublist.append
    (List.Sublist.append
    (List.Sublist.append
    (List.Sublist.append
    (List.Sublist.append
    (List.Sublist.append
    (List.Sublist.append
    (List.Sublist.append
    (List.Sublist.append
    (List.Sublist.append
    (List.Sublist.append
    (List.Sublist.append
    (List.Sublist.append
    (List.Sublist.refl _)
    (List.Sublist.refl _))
    (List.Sublist.refl _))
    (List.Sublist.refl _))
    (List.Sublist.refl _))
    (List.Sublist.refl _))
    (List.Sublist.refl _))
    (List.Sublist.refl _))
    (List.Sublist.refl _))
    (List.Sublist.refl _))
    (List.Sublist.refl _))
    (List.Sublist.refl _))
    (List.Sublist.refl _))
    (List.Sublist.refl _))
    (List.Sublist.refl _))
    (List.Sublist.refl _))
    (List.Sublist.refl _))
    (List.Sublist.refl _))
    (List.Sublist.refl _))
    (List.Sublist.refl _))
    (List.Sublist.refl _))
    (List.nil_sublist _))
    (List.Sublist.refl _))
    (List.Sublist.refl _))
    (List.Sublist.refl _)

theorem add_riderWeightMin_sublist (f : Filters) (v : ℚ) (h : f.riderWeightMin = none) :
    List.Sublist (buildSizeFilters f) (buildSizeFilters ({ f with riderWeightMin := some v })) := by
  unfold buildSizeFilters
  rw [h]
  exact List.Sublist.append
    (List.Sublist.append
    (List.Sublist.append
    (List.Sublist.append
    (List.Sublist.append
    (List.Sublist.append
    (List.Sublist.append
    (List.Sublist.append
    (List.Sublist.append
    (List.Sublist.append
    (List.Sublist.append
    (List.Sublist.append
    (List.Sublist.append
    (List.Sublist.append
    (List.Sublist.append
    (List.Sublist.append
    (List.Sublist.append
    (List.Sublist.append
    (List.Sublist.append
    (List.Sublist.append
    (List.Sublist.append
    (List.Sublist.append
    (List.Sublist.append
    (List.Sublist.append
    (List.Sublist.refl _)
    (List.Sublist.refl _))
    (List.Sublist.refl _))
    (List.Sublist.refl _))
    (List.Sublist.refl _))
    (List.Sublist.refl _))
    (List.Sublist.refl _))
    (List.Sublist.refl _))
    (List.Sublist.refl _))
    (List.Sublist.refl _))
    (List.Sublist.refl _))
    (List.Sublist.refl _))
    (List.Sublist.refl _))
    (List.Sublist.refl _))
    (List.Sublist.refl _))
    (List.Sublist.refl _))
    (List.Sublist.refl _))
    (List.Sublist.refl _))
    (List.Sublist.refl _))
    (List.Sublist.refl _))
    (List.Sublist.refl _))
    (List.Sublist.refl _))
    (List.nil_sublist _))
    (List.Sublist.refl _))
    (List.Sublist.refl _)

theorem add_riderWeightMax_sublist (f : Filters) (v : ℚ) (h : f.riderWeightMax = none) :
    List.Sublist (buildSizeFilters f) (buildSizeFilters ({ f with riderWeightMax := some v })) := by
  unfold buildSizeFilters
  rw [h]
  exact List.Sublist.append
    (List.Sublist.append
    (List.Sublist.append
    (List.Sublist.append
    (List.Sublist.append
    (List.Sublist.append
    (List.Sublist.append
    (List.Sublist.append
    (List.Sublist.append
    (List.Sublist.append
    (List.Sublist.append
    (List.Sublist.append
    (List.Sublist.append
    (List.Sublist.append
    (List.Sublist.append
    (List.Sublist.append
    (List.Sublist.append
    (List.Sublist.append
    (List.Sublist.append
    (List.Sublist.append
    (List.Sublist.append
    (List.Sublist.append
    (List.Sublist.append
    (List.Sublist.append
    (List.Sublist.refl _)
    (List.Sublist.refl _))
    (List.Sublist.refl _))
    (List.Sublist.refl _))
    (List.Sublist.refl _))
    (List.Sublist.refl _))
    (List.Sublist.refl _))
    (List.Sublist.refl _))
    (List.Sublist.refl _))
    (List.Sublist.refl _))
    (List.Sublist.refl _))
    (List.Sublist.refl _))
    (List.Sublist.refl _))
    (List.Sublist.refl _))
    (List.Sublist.refl _))
    (List.Sublist.refl _))
    (List.Sublist.refl _))
    (List.Sublist.refl _))
    (List.Sublist.refl _))
    (List.Sublist.refl _))
    (List.Sublist.refl _))
    (List.Sublist.refl _))
    (List.Sublist.refl _))
    (List.nil_sublist _))
    (List.Sublist.refl _)

theorem add_wide_sublist (f : Filters) (h : f.wide = false) :
    List.Sublist (buildSizeFilters f) (buildSizeFilters ({ f with wide := true })) := by
  unfold buildSizeFilters
  rw [h]
  exact List.Sublist.append
    (List.Sublist.append
    (List.Sublist.append
    (List.Sublist.append
    (List.Sublist.append
    (List.Sublist.append
    (List.Sublist.append
    (List.Sublist.append
    (List.Sublist.append
    (List.Sublist.append
    (List.Sublist.append
    (List.Sublist.append
    (List.Sublist.append
    (List.Sublist.append
    (List.Sublist.append
    (List.Sublist.append
    (List.Sublist.append
    (List.Sublist.append
    (List.Sublist.append
    (List.Sublist.append
    (List.Sublist.append
    (List.Sublist.append
    (List.Sublist.append
    (List.Sublist.append
    (List.Sublist.refl _)
    (List.Sublist.refl _))
    (List.Sublist.refl _))
    (List.Sublist.refl _))
    (List.Sublist.refl _))
    (List.Sublist.refl _))
    (List.Sublist.refl _))
    (List.Sublist.refl _))
    (List.Sublist.refl _))
    (List.Sublist.refl _))
    (List.Sublist.refl _))
    (List.Sublist.refl _))
    (List.Sublist.refl _))
    (List.Sublist.refl _))
    (List.Sublist.refl _))
    (List.Sublist.refl _))
    (List.Sublist.refl _))
    (List.Sublist.refl _))
    (List.Sublist.refl _))
    (List.Sublist.refl _))
    (List.Sublist.refl _))
    (List.Sublist.refl _))
    (List.Sublist.refl _))
    (List.Sublist.refl _))
    (List.nil_sublist _)

theorem add_brand_sublist (store : Store) (s : String) (f : Filters)
    (ids : List Nat) (h : f.brandId = []) :
    List.Sublist (buildSingleFilters store f s)
      (buildSingleFilters store ({ f with brandId := ids }) s) := by
  unfold buildSingleFilters
  rw [h]
  exact List.Sublist.append
    (List.Sublist.append
    (List.Sublist.append
    (List.Sublist.append
    (List.Sublist.append
    (List.Sublist.append
    (List.Sublist.append
    (List.Sublist.append
    (List.Sublist.refl _)
    (List.nil_sublist _))
    (List.Sublist.refl _))
    (List.Sublist.refl _))
    (List.Sublist.refl _))
    (List.Sublist.refl _))
    (List.Sublist.refl _))
    (List.Sublist.refl _))
    (List.Sublist.refl _)

theorem add_profileSel_sublist (store : Store) (s : String) (f : Filters)
    (ids : List Nat) (h : f.profileId = []) :
    List.Sublist (buildSingleFilters store f s)
      (buildSingleFilters store ({ f with profileId := ids }) s) := by
  unfold buildSingleFilters
  rw [h]
  exact List.Sublist.append
    (List.Sublist.append
    (List.Sublist.append
    (List.Sublist.append
    (List.Sublist.append
    (List.Sublist.append
    (List.Sublist.append
    (List.Sublist.append
    (List.Sublist.refl _)
    (List.Sublist.refl _))
    (List.nil_sublist _))
    (List.Sublist.refl _))
    (List.Sublist.refl _))
    (List.Sublist.refl _))
    (List.Sublist.refl _))
    (List.Sublist.refl _))
    (List.Sublist.refl _)

theorem add_shapeSel_sublist (store : Store) (s : String) (f : Filters)
    (ids : List Nat) (h : f.shapeId = []) :
    List.Sublist (buildSingleFilters store f s)
      (buildSingleFilters store ({ f with shapeId := ids }) s) := by
  unfold buildSingleFilters
  rw [h]
  exact List.Sublist.append
    (List.Sublist.append
    (List.Sublist.append
    (List.Sublist.append
    (List.Sublist.append
    (List.Sublist.append
    (List.Sublist.append
    (List.Sublist.append
    (List.Sublist.refl _)
    (List.Sublist.refl _))
    (List.Sublist.refl _))
    (List.nil_sublist _))
    (List.Sublist.refl _))
    (List.Sublist.refl _))
    (List.Sublist.refl _))
    (List.Sublist.refl _))
    (List.Sublist.refl _)

theorem add_responseTypeSel_sublist (store : Store) (s : String) (f : Filters)
    (ids : List Nat) (h : f.responseTypeId = []) :
    List.Sublist (buildSingleFilters store f s)
      (buildSingleFilters store ({ f with responseTypeId := ids }) s) := by
  unfold buildSingleFilters
  rw [h]
  exact List.Sublist.append
    (List.Sublist.append
    (List.Sublist.append
    (List.Sublist.append
    (List.Sublist.append
    (List.Sublist.append
    (List.Sublist.append
    (List.Sublist.append
    (List.Sublist.refl _)
    (List.Sublist.refl _))
    (List.Sublist.refl _))
    (List.Sublist.refl _))
    (List.nil_sublist _))
    (List.Sublist.refl _))
    (List.Sublist.refl _))
    (List.Sublist.refl _))
    (List.Sublist.refl _)

theorem add_year_sublist (store : Store) (s : String) (f : Filters)
    (ys : List Int) (h : f.year = []) :
    List.Sublist (buildSingleFilters store f s)
      (buildSingleFilters store ({ f with year := ys }) s) := by
  unfold buildSingleFilters
  rw [h]
  exact List.Sublist.append
    (List.Sublist.append
    (List.Sublist.append
    (List.Sublist.append
    (List.Sublist.append
    (List.Sublist.append
    (List.Sublist.append
    (List.Sublist.append
    (List.Sublist.refl _)
    (List.Sublist.refl _))
    (List.Sublist.refl _))
    (List.Sublist.refl _))
    (List.Sublist.refl _))
    (List.nil_sublist _))
    (List.Sublist.refl _))
    (List.Sublist.refl _))
    (List.Sublist.refl _)

theorem add_gender_sublist (store : Store) (s : String) (f : Filters)
    (gs : List String) (h : f.gender = []) :
    List.Sublist (buildSingleFilters store f s)
      (buildSingleFilters store ({ f with gender := gs }) s) := by
  unfold buildSingleFilters
  rw [h]
  exact List.Sublist.append
    (List.Sublist.append
    (List.Sublist.append
    (List.Sublist.append
    (List.Sublist.append
    (List.Sublist.append
    (List.Sublist.append
    (List.Sublist.append
    (List.Sublist.refl _)
    (List.Sublist.refl _))
    (List.Sublist.refl _))
    (List.Sublist.refl _))
    (List.Sublist.refl _))
    (List.Sublist.refl _))
    (List.Sublist.refl _))
    (List.nil_sublist _))
    (List.Sublist.refl _)

theorem add_priceMin_sublist (store : Store) (s : String) (f : Filters)
    (v : ℚ) (h : f.priceMin = none) :
    List.Sublist (buildSingleFilters store f s)
      (buildSingleFilters store ({ f with priceMin := some v }) s) := by
  have hp : List.Sublist (priceFilters f) (priceFilters ({ f with priceMin := some v })) := by
    unfold priceFilters
    rw [h]
    exact List.Sublist.append (List.nil_sublist _) (List.Sublist.refl _)
  unfold buildSingleFilters
  exact List.Sublist.append
    (List.Sublist.append
    (List.Sublist.append
    (List.Sublist.append
    (List.Sublist.append
    (List.Sublist.append
    (List.Sublist.append
    (List.Sublist.append
    (List.Sublist.refl _)
    (List.Sublist.refl _))
    (List.Sublist.refl _))
    (List.Sublist.refl _))
    (List.Sublist.refl _))
    (List.Sublist.refl _))
    (List.Sublist.refl _))
    (List.Sublist.refl _))
    (hp)

theorem add_priceMax_sublist (store : Store) (s : String) (f : Filters)
    (v : ℚ) (h : f.priceMax = none) :
    List.Sublist (buildSingleFilters store f s)
      (buildSingleFilters store ({ f with priceMax := some v }) s) := by
  have hp : List.Sublist (priceFilters f) (priceFilters ({ f with priceMax := some v })) := by
    unfold priceFilters
    rw [h]
    exact List.Sublist.append (List.Sublist.refl _) (List.nil_sublist _)
  unfold buildSingleFilters
  exact List.Sublist.append
    (List.Sublist.append
    (List.Sublist.append
    (List.Sublist.append
    (List.Sublist.append
    (List.Sublist.append
    (List.Sublist.append
    (List.Sublist.append
    (List.Sublist.refl _)
    (List.Sublist.refl _))
    (List.Sublist.refl _))
    (List.Sublist.refl _))
    (List.Sublist.refl _))
    (List.Sublist.refl _))
    (List.Sublist.refl _))
    (List.Sublist.refl _))
    (hp)

theorem add_flexMin_sublist (store : Store) (s : String) (f : Filters) (v : ℚ)
    (hAdd : f.flexMin = none ∨ (f.flexMin = some 1 ∧ f.flexMax = some 10))
    (hFlex : noNewDefaultFlex f (FilterAdd.flexMin v)) :
    List.Sublist (buildSingleFilters store f s)
      (buildSingleFilters store ({ f with flexMin := some v }) s) := by
  have hf : List.Sublist (flexFilters f) (flexFilters ({ f with flexMin := some v })) := by
    rcases hAdd with hn | hd
    · have hnd : ¬ (f.flexMin = some 1 ∧ f.flexMax = some 10) := by
        rintro ⟨h1, h2⟩
        rw [hn] at h1
        exact Option.noConfusion h1
      have hnd2 : ¬ (({ f with flexMin := some v } : Filters).flexMin = some 1 ∧
          ({ f with flexMin := some v } : Filters).flexMax = some 10) := by
        intro hc
        exact hnd (hFlex hc)
      unfold flexFilters
      rw [if_neg hnd, if_neg hnd2, hn]
      exact List.Sublist.append (List.nil_sublist _) (List.Sublist.refl _)
    · unfold flexFilters
      rw [if_pos hd]
      exact List.nil_sublist _
  unfold buildSingleFilters
  exact List.Sublist.append
    (List.Sublist.append
    (List.Sublist.append
    (List.Sublist.append
    (List.Sublist.append
    (List.Sublist.append
    (List.Sublist.append
    (List.Sublist.append
    (List.Sublist.refl _)
    (List.Sublist.refl _))
    (List.Sublist.refl _))
    (List.Sublist.refl _))
    (List.Sublist.refl _))
    (List.Sublist.refl _))
    (hf))
    (List.Sublist.refl _))
    (List.Sublist.refl _)

theorem add_flexMax_sublist (store : Store) (s : String) (f : Filters) (v : ℚ)
    (hAdd : f.flexMax = none ∨ (f.flexMin = some 1 ∧ f.flexMax = some 10))
    (hFlex : noNewDefaultFlex f (FilterAdd.flexMax v)) :
    List.Sublist (buildSingleFilters store f s)
      (buildSingleFilters store ({ f with flexMax := some v }) s) := by
  have hf : List.Sublist (flexFilters f) (flexFilters ({ f with flexMax := some v })) := by
    rcases hAdd with hn | hd
    · have hnd : ¬ (f.flexMin = some 1 ∧ f.flexMax = some 10) := by
        rintro ⟨h1, h2⟩
        rw [hn] at h2
        exact Option.noConfusion h2
      have hnd2 : ¬ (({ f with flexMax := some v } : Filters).flexMin = some 1 ∧
          ({ f with flexMax := some v } : Filters).flexMax = some 10) := by
        intro hc
        exact hnd (hFlex hc)
      unfold flexFilters
      rw [if_neg hnd, if_neg hnd2, hn]
      exact List.Sublist.append (List.Sublist.refl _) (List.nil_sublist _)
    · unfold flexFilters
      rw [if_pos hd]
      exact List.nil_sublist _
  unfold buildSingleFilters
  exact List.Sublist.append
    (List.Sublist.append
    (List.Sublist.append
    (List.Sublist.append
    (List.Sublist.append
    (List.Sublist.append
    (List.Sublist.append
    (List.Sublist.append
    (List.Sublist.refl _)
    (List.Sublist.refl _))
    (List.Sublist.refl _))
    (List.Sublist.refl _))
    (List.Sublist.refl _))
    (List.Sublist.refl _))
    (hf))
    (List.Sublist.refl _))
    (List.Sublist.refl _)

/-- C4 (amended): adding one constraint to a previously unconstrained
facet or attribute never increases the reported `totalCount`, provided the
addition does not complete the exact default flex range `(1, 10)` (which
the builder treats as unconstrained and therefore drops). -/
theorem claim4_added_constraint_monotone (store : Store) (s : String)
    (page : Nat) (f : Filters) (a : FilterAdd) (hAdd : isAddition f a)
    (hFlex : noNewDefaultFlex f a) :
    pipelineCount store (applyAdd f a) s page ≤ pipelineCount store f s page := by
  rw [pipelineCount_eq, pipelineCount_eq]
  cases a with
  | brand ids =>
      simp only [isAddition] at hAdd
      apply countModel_mono
      · show ∀ i, memOpt (afterTerrain store ({ f with brandId := ids })) i →
            memOpt (afterTerrain store f) i
        exact fun i h => h
      · show ∀ row : CatalogRow,
            (buildSingleFilters store ({ f with brandId := ids }) s).all (rowMatchesMain row) = true →
            (buildSingleFilters store f s).all (rowMatchesMain row) = true
        exact fun row h =>
          all_mono_of_sublist (add_brand_sublist store s f ids hAdd.1) h
  | profileSel ids =>
      simp only [isAddition] at hAdd
      apply countModel_mono
      · show ∀ i, memOpt (afterTerrain store ({ f with profileId := ids })) i →
            memOpt (afterTerrain store f) i
        exact fun i h => h
      · show ∀ row : CatalogRow,
            (buildSingleFilters store ({ f with profileId := ids }) s).all (rowMatchesMain row) = true →
            (buildSingleFilters store f s).all (rowMatchesMain row) = true
        exact fun row h =>
          all_mono_of_sublist (add_profileSel_sublist store s f ids hAdd.1) h
  | shapeSel ids =>
      simp only [isAddition] at hAdd
      apply countModel_mono
      · show ∀ i, memOpt (afterTerrain store ({ f with shapeId := ids })) i →
            memOpt (afterTerrain store f) i
        exact fun i h => h
      · show ∀ row : CatalogRow,
            (buildSingleFilters store ({ f with shapeId := ids }) s).all (rowMatchesMain row) = true →
            (buildSingleFilters store f s).all (rowMatchesMain row) = true
        exact fun row h =>
          all_mono_of_sublist (add_shapeSel_sublist store s f ids hAdd.1) h
  | responseTypeSel ids =>
      simp only [isAddition] at hAdd
      apply countModel_mono
      · show ∀ i, memOpt (afterTerrain store ({ f with responseTypeId := ids })) i →
            memOpt (afterTerrain store f) i
        exact fun i h => h
      · show ∀ row : CatalogRow,
            (buildSingleFilters store ({ f with responseTypeId := ids }) s).all (rowMatchesMain row) = true →
            (buildSingleFilters store f s).all (rowMatchesMain row) = true
        exact fun row h =>
          all_mono_of_sublist (add_responseTypeSel_sublist store s f ids hAdd.1) h
  | year ys =>
      simp only [isAddition] at hAdd
      apply countModel_mono
      · show ∀ i, memOpt (afterTerrain store ({ f with year := ys })) i →
            memOpt (afterTerrain store f) i
        exact fun i h => h
      · show ∀ row : CatalogRow,
            (buildSingleFilters store ({ f with year := ys }) s).all (rowMatchesMain row) = true →
            (buildSingleFilters store f s).all (rowMatchesMain row) = true
        exact fun row h =>
          all_mono_of_sublist (add_year_sublist store s f ys hAdd.1) h
  | gender gs =>
      simp only [isAddition] at hAdd
      apply countModel_mono
      · show ∀ i, memOpt (afterTerrain store ({ f with gender := gs })) i →
            memOpt (afterTerrain store f) i
        exact fun i h => h
      · show ∀ row : CatalogRow,
            (buildSingleFilters store ({ f with gender := gs }) s).all (rowMatchesMain row) = true →
            (buildSingleFilters store f s).all (rowMatchesMain row) = true
        exact fun row h =>
          all_mono_of_sublist (add_gender_sublist store s f gs hAdd.1) h
  | priceMin v =>
      simp only [isAddition] at hAdd
      apply countModel_mono
      · show ∀ i, memOpt (afterTerrain store ({ f with priceMin := some v })) i →
            memOpt (afterTerrain store f) i
        exact fun i h => h
      · show ∀ row : CatalogRow,
            (buildSingleFilters store ({ f with priceMin := some v }) s).all (rowMatchesMain row) = true →
            (buildSingleFilters store f s).all (rowMatchesMain row) = true
        exact fun row h =>
          all_mono_of_sublist (add_priceMin_sublist store s f v hAdd) h
  | priceMax v =>
      simp only [isAddition] at hAdd
      apply countModel_mono
      · show ∀ i, memOpt (afterTerrain store ({ f with priceMax := some v })) i →
            memOpt (afterTerrain store f) i
        exact fun i h => h
      · show ∀ row : CatalogRow,
            (buildSingleFilters store ({ f with priceMax := some v }) s).all (rowMatchesMain row) = true →
            (buildSingleFilters store f s).all (rowMatchesMain row) = true
        exact fun row h =>
          all_mono_of_sublist (add_priceMax_sublist store s f v hAdd) h
  | flexMin v =>
      simp only [isAddition] at hAdd
      apply countModel_mono
      · show ∀ i, memOpt (afterTerrain store ({ f with flexMin := some v })) i →
            memOpt (afterTerrain store f) i
        exact fun i h => h
      · show ∀ row : CatalogRow,
            (buildSingleFilters store ({ f with flexMin := some v }) s).all (rowMatchesMain row) = true →
            (buildSingleFilters store f s).all (rowMatchesMain row) = true
        exact fun row h =>
          all_mono_of_sublist (add_flexMin_sublist store s f v hAdd hFlex) h
  | flexMax v =>
      simp only [isAddition] at hAdd
      apply countModel_mono
      · show ∀ i, memOpt (afterTerrain store ({ f with flexMax := some v })) i →
            memOpt (afterTerrain store f) i
        exact fun i h => h
      · show ∀ row : CatalogRow,
            (buildSingleFilters store ({ f with flexMax := some v }) s).all (rowMatchesMain row) = true →
            (buildSingleFilters store f s).all (rowMatchesMain row) = true
        exact fun row h =>
          all_mono_of_sublist (add_flexMax_sublist store s f v hAdd hFlex) h
  | ability ids =>
      simp only [isAddition] at hAdd
      apply countModel_mono
      · apply afterTerrain_mono
        · show hasSizeFilters f = true → hasSizeFilters ({ f with abilityLevelIds := ids }) = true
          exact fun h => h
        · show ∀ i, i ∈ sizeIds store ({ f with abilityLevelIds := ids }) → i ∈ sizeIds store f
          exact fun i h => h
        · exact Or.inl hAdd.1
        · exact Or.inr rfl
      · show ∀ row : CatalogRow,
            (buildSingleFilters store ({ f with abilityLevelIds := ids }) s).all (rowMatchesMain row) = true →
            (buildSingleFilters store f s).all (rowMatchesMain row) = true
        exact fun row h => h
  | terrain ids =>
      simp only [isAddition] at hAdd
      apply countModel_mono
      · apply afterTerrain_mono
        · show hasSizeFilters f = true → hasSizeFilters ({ f with terrainTypeIds := ids }) = true
          exact fun h => h
        · show ∀ i, i ∈ sizeIds store ({ f with terrainTypeIds := ids }) → i ∈ sizeIds store f
          exact fun i h => h
        · exact Or.inr rfl
        · exact Or.inl hAdd.1
      · show ∀ row : CatalogRow,
            (buildSingleFilters store ({ f with terrainTypeIds := ids }) s).all (rowMatchesMain row) = true →
            (buildSingleFilters store f s).all (rowMatchesMain row) = true
        exact fun row h => h
  | sizeMin v =>
      simp only [isAddition] at hAdd
      apply countModel_mono
      · apply afterTerrain_mono
        · intro hh
          show hasSizeFilters ({ f with sizeMin := some v }) = true
          simp [hasSizeFilters]
        · exact sizeIds_mono store f ({ f with sizeMin := some v })
            (fun r hr => all_mono_of_sublist (add_sizeMin_sublist f v hAdd) hr)
        · exact Or.inr rfl
        · exact Or.inr rfl
      · show ∀ row : CatalogRow,
            (buildSingleFilters store ({ f with sizeMin := some v }) s).all (rowMatchesMain row) = true →
            (buildSingleFilters store f s).all (rowMatchesMain row) = true
        exact fun row h => h
  | sizeMax v =>
      simp only [isAddition] at hAdd
      apply countModel_mono
      · apply afterTerrain_mono
        · intro hh
          show hasSizeFilters ({ f with sizeMax := some v }) = true
          simp [hasSizeFilters]
        · exact sizeIds_mono store f ({ f with sizeMax := some v })
            (fun r hr => all_mono_of_sublist (add_sizeMax_sublist f v hAdd) hr)
        · exact Or.inr rfl
        · exact Or.inr rfl
      · show ∀ row : CatalogRow,
            (buildSingleFilters store ({ f with sizeMax := some v }) s).all (rowMatchesMain row) = true →
            (buildSingleFilters store f s).all (rowMatchesMain row) = true
        exact fun row h => h
  | waistWidthMin v =>
      simp only [isAddition] at hAdd
      apply countModel_mono
      · apply afterTerrain_mono
        · intro hh
          show hasSizeFilters ({ f with waistWidthMin := some v }) = true
          simp [hasSizeFilters]
        · exact sizeIds_mono store f ({ f with waistWidthMin := some v })
            (fun r hr => all_mono_of_sublist (add_waistWidthMin_sublist f v hAdd) hr)
        · exact Or.inr rfl
        · exact Or.inr rfl
      · show ∀ row : CatalogRow,
            (buildSingleFilters store ({ f with waistWidthMin := some v }) s).all (rowMatchesMain row) = true →
            (buildSingleFilters store f s).all (rowMatchesMain row) = true
        exact fun row h => h
  | waistWidthMax v =>
      simp only [isAddition] at hAdd
      apply countModel_mono
      · apply afterTerrain_mono
        · intro hh
          show hasSizeFilters ({ f with waistWidthMax := some v }) = true
          simp [hasSizeFilters]
        · exact sizeIds_mono store f ({ f with waistWidthMax := some v })
            (fun r hr => all_mono_of_sublist (add_waistWidthMax_sublist f v hAdd) hr)
        · exact Or.inr rfl
        · exact Or.inr rfl
      · show ∀ row : CatalogRow,
            (buildSingleFilters store ({ f with waistWidthMax := some v }) s).all (rowMatchesMain row) = true →
            (buildSingleFilters store f s).all (rowMatchesMain row) = true
        exact fun row h => h
  | tipWidthMin v =>
      simp only [isAddition] at hAdd
      apply countModel_mono
      · apply afterTerrain_mono
        · intro hh
          show hasSizeFilters ({ f with tipWidthMin := some v }) = true
          simp [hasSizeFilters]
        · exact sizeIds_mono store f ({ f with tipWidthMin := some v })
            (fun r hr => all_mono_of_sublist (add_tipWidthMin_sublist f v hAdd) hr)
        · exact Or.inr rfl
        · exact Or.inr rfl
      · show ∀ row : CatalogRow,
            (buildSingleFilters store ({ f with tipWidthMin := some v }) s).all (rowMatchesMain row) = true →
            (buildSingleFilters store f s).all (rowMatchesMain row) = true
        exact fun row h => h
  | tipWidthMax v =>
      simp only [isAddition] at hAdd
      apply countModel_mono
      · apply afterTerrain_mono
        · intro hh
          show hasSizeFilters ({ f with tipWidthMax := some v }) = true
          simp [hasSizeFilters]
        · exact sizeIds_mono store f ({ f with tipWidthMax := some v })
            (fun r hr => all_mono_of_sublist (add_tipWidthMax_sublist f v hAdd) hr)
        · exact Or.inr rfl
        · exact Or.inr rfl
      · show ∀ row : CatalogRow,
            (buildSingleFilters store ({ f with tipWidthMax := some v }) s).all (rowMatchesMain row) = true →
            (buildSingleFilters store f s).all (rowMatchesMain row) = true
        exact fun row h => h
  | tailWidthMin v =>
      simp only [isAddition] at hAdd
      apply countModel_mono
      · apply afterTerrain_mono
        · intro hh
          show hasSizeFilters ({ f with tailWidthMin := some v }) = true
          simp [hasSizeFilters]
        · exact sizeIds_mono store f ({ f with tailWidthMin := some v })
            (fun r hr => all_mono_of_sublist (add_tailWidthMin_sublist f v hAdd) hr)
        · exact Or.inr rfl
        · exact Or.inr rfl
      · show ∀ row : CatalogRow,
            (buildSingleFilters store ({ f with tailWidthMin := some v }) s).all (rowMatchesMain row) = true →
            (buildSingleFilters store f s).all (rowMatchesMain row) = true
        exact fun row h => h
  | tailWidthMax v =>
      simp only [isAddition] at hAdd
      apply countModel_mono
      · apply afterTerrain_mono
        · intro hh
          show hasSizeFilters ({ f with tailWidthMax := some v }) = true
          simp [hasSizeFilters]
        · exact sizeIds_mono store f ({ f with tailWidthMax := some v })
            (fun r hr => all_mono_of_sublist (add_tailWidthMax_sublist f v hAdd) hr)
        · exact Or.inr rfl
        · exact Or.inr rfl
      · show ∀ row : CatalogRow,
            (buildSingleFilters store ({ f with tailWidthMax := some v }) s).all (rowMatchesMain row) = true →
            (buildSingleFilters store f s).all (rowMatchesMain row) = true
        exact fun row h => h
  | effectiveEdgeMin v =>
      simp only [isAddition] at hAdd
      apply countModel_mono
      · apply afterTerrain_mono
        · intro hh
          show hasSizeFilters ({ f with effectiveEdgeMin := some v }) = true
          simp [hasSizeFilters]
        · exact sizeIds_mono store f ({ f with effectiveEdgeMin := some v })
            (fun r hr => all_mono_of_sublist (add_effectiveEdgeMin_sublist f v hAdd) hr)
        · exact Or.inr rfl
        · exact Or.inr rfl
      · show ∀ row : CatalogRow,
            (buildSingleFilters store ({ f with effectiveEdgeMin := some v }) s).all (rowMatchesMain row) = true →
            (buildSingleFilters store f s).all (rowMatchesMain row) = true
        exact fun row h => h
  | effectiveEdgeMax v =>
      simp only [isAddition] at hAdd
      apply countModel_mono
      · apply afterTerrain_mono
        · intro hh
          show hasSizeFilters ({ f with effectiveEdgeMax := some v }) = true
          simp [hasSizeFilters]
        · exact sizeIds_mono store f ({ f with effectiveEdgeMax := some v })
            (fun r hr => all_mono_of_sublist (add_effectiveEdgeMax_sublist f v hAdd) hr)
        · exact Or.inr rfl
        · exact Or.inr rfl
      · show ∀ row : CatalogRow,
            (buildSingleFilters store ({ f with effectiveEdgeMax := some v }) s).all (rowMatchesMain row) = true →
            (buildSingleFilters store f s).all (rowMatchesMain row) = true
        exact fun row h => h
  | runningLengthMin v =>
      simp only [isAddition] at hAdd
      apply countModel_mono
      · apply afterTerrain_mono
        · intro hh
          show hasSizeFilters ({ f with runningLengthMin := some v }) = true
          simp [hasSizeFilters]
        · exact sizeIds_mono store f ({ f with runningLengthMin := some v })
            (fun r hr => all_mono_of_sublist (add_runningLengthMin_sublist f v hAdd) hr)
        · exact Or.inr rfl
        · exact Or.inr rfl
      · show ∀ row : CatalogRow,
            (buildSingleFilters store ({ f with runningLengthMin := some v }) s).all (rowMatchesMain row) = true →
            (buildSingleFilters store f s).all (rowMatchesMain row) = true
        exact fun row h => h
  | runningLengthMax v =>
      simp only [isAddition] at hAdd
      apply countModel_mono
      · apply afterTerrain_mono
        · intro hh
          show hasSizeFilters ({ f with runningLengthMax := some v }) = true
          simp [hasSizeFilters]
        · exact sizeIds_mono store f ({ f with runningLengthMax := some v })
            (fun r hr => all_mono_of_sublist (add_runningLengthMax_sublist f v hAdd) hr)
        · exact Or.inr rfl
        · exact Or.inr rfl
      · show ∀ row : CatalogRow,
            (buildSingleFilters store ({ f with runningLengthMax := some v }) s).all (rowMatchesMain row) = true →
            (buildSingleFilters store f s).all (rowMatchesMain row) = true
        exact fun row h => h
  | sidecutRadiusMin v =>
      simp only [isAddition] at hAdd
      apply countModel_mono
      · apply afterTerrain_mono
        · intro hh
          show hasSizeFilters ({ f with sidecutRadiusMin := some v }) = true
          simp [hasSizeFilters]
        · exact sizeIds_mono store f ({ f with sidecutRadiusMin := some v })
            (fun r hr => all_mono_of_sublist (add_sidecutRadiusMin_sublist f v hAdd) hr)
        · exact Or.inr rfl
        · exact Or.inr rfl
      · show ∀ row : CatalogRow,
            (buildSingleFilters store ({ f with sidecutRadiusMin := some v }) s).all (rowMatchesMain row) = true →
            (buildSingleFilters store f s).all (rowMatchesMain row) = true
        exact fun row h => h
  | sidecutRadiusMax v =>
      simp only [isAddition] at hAdd
      apply countModel_mono
      · apply afterTerrain_mono
        · intro hh
          show hasSizeFilters ({ f with sidecutRadiusMax := some v }) = true
          simp [hasSizeFilters]
        · exact sizeIds_mono store f ({ f with sidecutRadiusMax := some v })
            (fun r hr => all_mono_of_sublist (add_sidecutRadiusMax_sublist f v hAdd) hr)
        · exact Or.inr rfl
        · exact Or.inr rfl
      · show ∀ row : CatalogRow,
            (buildSingleFilters store ({ f with sidecutRadiusMax := some v }) s).all (rowMatchesMain row) = true →
            (buildSingleFilters store f s).all (rowMatchesMain row) = true
        exact fun row h => h
  | sidecutDepthMin v =>
      simp only [isAddition] at hAdd
      apply countModel_mono
      · apply afterTerrain_mono
        · intro hh
          show hasSizeFilters ({ f with sidecutDepthMin := some v }) = true
          simp [hasSizeFilters]
        · exact sizeIds_mono store f ({ f with sidecutDepthMin := some v })
            (fun r hr => all_mono_of_sublist (add_sidecutDepthMin_sublist f v hAdd) hr)
        · exact Or.inr rfl
        · exact Or.inr rfl
      · show ∀ row : CatalogRow,
            (buildSingleFilters store ({ f with sidecutDepthMin := some v }) s).all (rowMatchesMain row) = true →
            (buildSingleFilters store f s).all (rowMatchesMain row) = true
        exact fun row h => h
  | sidecutDepthMax v =>
      simp only [isAddition] at hAdd
      apply countModel_mono
      · apply afterTerrain_mono
        · intro hh
          show hasSizeFilters ({ f with sidecutDepthMax := some v }) = true
          simp [hasSizeFilters]
        · exact sizeIds_mono store f ({ f with sidecutDepthMax := some v })
            (fun r hr => all_mono_of_sublist (add_sidecutDepthMax_sublist f v hAdd) hr)
        · exact Or.inr rfl
        · exact Or.inr rfl
      · show ∀ row : CatalogRow,
            (buildSingleFilters store ({ f with sidecutDepthMax := some v }) s).all (rowMatchesMain row) = true →
            (buildSingleFilters store f s).all (rowMatchesMain row) = true
        exact fun row h => h
  | minStanceMin v =>
      simp only [isAddition] at hAdd
      apply countModel_mono
      · apply afterTerrain_mono
        · intro hh
          show hasSizeFilters ({ f with minStanceMin := some v }) = true
          simp [hasSizeFilters]
        · exact sizeIds_mono store f ({ f with minStanceMin := some v })
            (fun r hr => all_mono_of_sublist (add_minStanceMin_sublist f v hAdd) hr)
        · exact Or.inr rfl
        · exact Or.inr rfl
      · show ∀ row : CatalogRow,
            (buildSingleFilters store ({ f with minStanceMin := some v }) s).all (rowMatchesMain row) = true →
            (buildSingleFilters store f s).all (rowMatchesMain row) = true
        exact fun row h => h
  | minStanceMax v =>
      simp only [isAddition] at hAdd
      apply countModel_mono
      · apply afterTerrain_mono
        · intro hh
          show hasSizeFilters ({ f with minStanceMax := some v }) = true
          simp [hasSizeFilters]
        · exact sizeIds_mono store f ({ f with minStanceMax := some v })
            (fun r hr => all_mono_of_sublist (add_minStanceMax_sublist f v hAdd) hr)
        · exact Or.inr rfl
        · exact Or.inr rfl
      · show ∀ row : CatalogRow,
            (buildSingleFilters store ({ f with minStanceMax := some v }) s).all (rowMatchesMain row) = true →
            (buildSingleFilters store f s).all (rowMatchesMain row) = true
        exact fun row h => h
  | maxStanceMin v =>
      simp only [isAddition] at hAdd
      apply countModel_mono
      · apply afterTerrain_mono
        · intro hh
          show hasSizeFilters ({ f with maxStanceMin := some v }) = true
          simp [hasSizeFilters]
        · exact sizeIds_mono store f ({ f with maxStanceMin := some v })
            (fun r hr => all_mono_of_sublist (add_maxStanceMin_sublist f v hAdd) hr)
        · exact Or.inr rfl
        · exact Or.inr rfl
      · show ∀ row : CatalogRow,
            (buildSingleFilters store ({ f with maxStanceMin := some v }) s).all (rowMatchesMain row) = true →
            (buildSingleFilters store f s).all (rowMatchesMain row) = true
        exact fun row h => h
  | maxStanceMax v =>
      simp only [isAddition] at hAdd
      apply countModel_mono
      · apply afterTerrain_mono
        · intro hh
          show hasSizeFilters ({ f with maxStanceMax := some v }) = true
          simp [hasSizeFilters]
        · exact sizeIds_mono store f ({ f with maxStanceMax := some v })
            (fun r hr => all_mono_of_sublist (add_maxStanceMax_sublist f v hAdd) hr)
        · exact Or.inr rfl
        · exact Or.inr rfl
      · show ∀ row : CatalogRow,
            (buildSingleFilters store ({ f with maxStanceMax := some v }) s).all (rowMatchesMain row) = true →
            (buildSingleFilters store f s).all (rowMatchesMain row) = true
        exact fun row h => h
  | setbackMin v =>
      simp only [isAddition] at hAdd
      apply countModel_mono
      · apply afterTerrain_mono
        · intro hh
          show hasSizeFilters ({ f with setbackMin := some v }) = true
          simp [hasSizeFilters]
        · exact sizeIds_mono store f ({ f with setbackMin := some v })
            (fun r hr => all_mono_of_sublist (add_setbackMin_sublist f v hAdd) hr)
        · exact Or.inr rfl
        · exact Or.inr rfl
      · show ∀ row : CatalogRow,
            (buildSingleFilters store ({ f with setbackMin := some v }) s).all (rowMatchesMain row) = true →
            (buildSingleFilters store f s).all (rowMatchesMain row) = true
        exact fun row h => h
  | setbackMax v =>
      simp only [isAddition] at hAdd
      apply countModel_mono
      · apply afterTerrain_mono
        · intro hh
          show hasSizeFilters ({ f with setbackMax := some v }) = true
          simp [hasSizeFilters]
        · exact sizeIds_mono store f ({ f with setbackMax := some v })
            (fun r hr => all_mono_of_sublist (add_setbackMax_sublist f v hAdd) hr)
        · exact Or.inr rfl
        · exact Or.inr rfl
      · show ∀ row : CatalogRow,
            (buildSingleFilters store ({ f with setbackMax := some v }) s).all (rowMatchesMain row) = true →
            (buildSingleFilters store f s).all (rowMatchesMain row) = true
        exact fun row h => h
  | riderWeightMin v =>
      simp only [isAddition] at hAdd
      apply countModel_mono
      · apply afterTerrain_mono
        · intro hh
          show hasSizeFilters ({ f with riderWeightMin := some v }) = true
          simp [hasSizeFilters]
        · exact sizeIds_mono store f ({ f with riderWeightMin := some v })
            (fun r hr => all_mono_of_sublist (add_riderWeightMin_sublist f v hAdd) hr)
        · exact Or.inr rfl
        · exact Or.inr rfl
      · show ∀ row : CatalogRow,
            (buildSingleFilters store ({ f with riderWeightMin := some v }) s).all (rowMatchesMain row) = true →
            (buildSingleFilters store f s).all (rowMatchesMain row) = true
        exact fun row h => h
  | riderWeightMax v =>
      simp only [isAddition] at hAdd
      apply countModel_mono
      · apply afterTerrain_mono
        · intro hh
          show hasSizeFilters ({ f with riderWeightMax := some v }) = true
          simp [hasSizeFilters]
        · exact sizeIds_mono store f ({ f with riderWeightMax := some v })
            (fun r hr => all_mono_of_sublist (add_riderWeightMax_sublist f v hAdd) hr)
        · exact Or.inr rfl
        · exact Or.inr rfl
      · show ∀ row : CatalogRow,
            (buildSingleFilters store ({ f with riderWeightMax := some v }) s).all (rowMatchesMain row) = true →
            (buildSingleFilters store f s).all (rowMatchesMain row) = true
        exact fun row h => h
  | wide =>
      simp only [isAddition] at hAdd
      apply countModel_mono
      · apply afterTerrain_mono
        · intro hh
          show hasSizeFilters ({ f with wide := true }) = true
          simp [hasSizeFilters]
        · exact sizeIds_mono store f ({ f with wide := true })
            (fun r hr => all_mono_of_sublist (add_wide_sublist f hAdd) hr)
        · exact Or.inr rfl
        · exact Or.inr rfl
      · show ∀ row : CatalogRow,
            (buildSingleFilters store ({ f with wide := true }) s).all (rowMatchesMain row) = true →
            (buildSingleFilters store f s).all (rowMatchesMain row) = true
        exact fun row h => h

/-- C4 counterexample: over a store with one catalog row whose
`flex_rating` is NULL, starting from filters with `flexMin = 1` and the
`flexMax` bound unset (so a `gte flex_rating 1` predicate is applied,
excluding the row), newly setting the `flexMax` bound to `10` completes
the exact default flex range, which the builder drops as unconstrained —
and `totalCount` rises from 0 to 1, contradicting monotonicity as
claimed. -/
theorem claim4_counterexample :
    isAddition flexGapFilters (FilterAdd.flexMax 10) ∧
    pipelineCount demoStore flexGapFilters "" 1 = 0 ∧
    pipelineCount demoStore (applyAdd flexGapFilters (FilterAdd.flexMax 10)) "" 1 = 1 ∧
    ¬ (pipelineCount demoStore (applyAdd flexGapFilters (FilterAdd.flexMax 10)) "" 1 ≤
        pipelineCount demoStore flexGapFilters "" 1) :=
  ⟨Or.inl rfl, by decide, by decide, by decide⟩

/-- C4 witness: adding a price lower bound to the default filter state
over the demo store does not increase the count. -/
theorem claim4_witness :
    isAddition createDefaultFilters (FilterAdd.priceMin 200) ∧
    pipelineCount demoStore (applyAdd createDefaultFilters (FilterAdd.priceMin 200)) "" 1 ≤
      pipelineCount demoStore createDefaultFilters "" 1 :=
  ⟨rfl, claim4_added_constraint_monotone demoStore "" 1 createDefaultFilters
    (FilterAdd.priceMin 200) rfl (fun h => h)⟩

/-- C3: under an applied rider-weight range `[lo, hi]`, a size row with
weight band `[wlo, whi]` passes the size sub-query iff its own max weight
is ≥ the requested min and its own min weight is ≤ the requested max —
equivalently, iff the two ranges overlap (not containment). -/
theorem claim3_weight_range_overlap (lo hi wlo whi : ℚ) (r : SizeRow)
    (hmin : r.rider_weight_min_lbs = some wlo)
    (hmax : r.rider_weight_max_lbs = some whi)
    (hvar : wlo ≤ whi) (hreq : lo ≤ hi) :
    ((buildSizeFilters (weightOnlyFilters lo hi)).all (sizeRowMatches r) = true ↔
      (lo ≤ whi ∧ wlo ≤ hi)) ∧
    ((buildSizeFilters (weightOnlyFilters lo hi)).all (sizeRowMatches r) = true ↔
      ∃ x : ℚ, lo ≤ x ∧ x ≤ hi ∧ wlo ≤ x ∧ x ≤ whi) := by
  have hall : (buildSizeFilters (weightOnlyFilters lo hi)).all (sizeRowMatches r) = true ↔
      (lo ≤ whi ∧ wlo ≤ hi) := by
    simp [buildSizeFilters, weightOnlyFilters, createDefaultFilters, optSF,
      sizeRowMatches, optGe, optLe, hmin, hmax]
  refine ⟨hall, hall.trans ⟨?_, ?_⟩⟩
  · rintro ⟨h1, h2⟩
    exact ⟨max lo wlo, le_max_left _ _, max_le hreq h2, le_max_right _ _,
      max_le h1 hvar⟩
  · rintro ⟨x, hx1, hx2, hx3, hx4⟩
    exact ⟨le_trans hx1 hx4, le_trans hx3 hx2⟩

/-- C3 witness: requested band 120–180 lbs against a 100–150 lbs variant:
the variant qualifies, by overlap. -/
theorem claim3_witness :
    ((buildSizeFilters (weightOnlyFilters 120 180)).all (sizeRowMatches weightRow) = true ↔
      ((120 : ℚ) ≤ 150 ∧ (100 : ℚ) ≤ 180)) ∧
    ((buildSizeFilters (weightOnlyFilters 120 180)).all (sizeRowMatches weightRow) = true ↔
      ∃ x : ℚ, 120 ≤ x ∧ x ≤ 180 ∧ 100 ≤ x ∧ x ≤ 150) :=
  claim3_weight_range_overlap 120 180 100 150 weightRow rfl rfl
    (by decide) (by decide)

theorem continueTerrain_empty (store : Store) (f : Filters) (s : String)
    (page : Nat) (r : Option (List Nat)) (log : List QueryTag)
    (h : terrainStep store f r = some [])
    (hrne : r ≠ some [])
    (hlog : QueryTag.mainQ ∉ log) :
    (continueTerrain store f s page noFailures r log).1 = emptyState ∧
    QueryTag.mainQ ∉ (continueTerrain store f s page noFailures r log).2 := by
  unfold continueTerrain
  unfold terrainStep at h
  by_cases ht : f.terrainTypeIds = []
  · rw [if_pos ht] at h
    exact absurd h hrne
  · rw [if_neg ht] at h
    rw [if_neg ht]
    rw [if_neg (show ((noFailures).terrainFail = true) → False by simp [noFailures])]
    have hint : intersectOpt r (terrainRaw store f) = [] := by
      injection h with h2
    by_cases hraw : terrainRaw store f = []
    · rw [if_pos hraw]
      refine ⟨rfl, ?_⟩
      simp only [List.mem_append, List.mem_singleton]
      rintro (hm | hm)
      · exact hlog hm
      · exact QueryTag.noConfusion hm
    · rw [if_neg hraw]
      cases r with
      | none =>
          exact absurd hint hraw
      | some l =>
          simp only []
          rw [if_pos
            (show List.filter (fun i => decide (i ∈ terrainRaw store f)) l = [] from hint)]
          refine ⟨rfl, ?_⟩
          simp only [List.mem_append, List.mem_singleton]
          rintro (hm | hm)
          · exact hlog hm
          · exact QueryTag.noConfusion hm

theorem continueAbility_empty (store : Store) (f : Filters) (s : String)
    (page : Nat) (r : Option (List Nat)) (log : List QueryTag)
    (h : terrainStep store f (abilityStep store f r) = some [])
    (hrne : r ≠ some [])
    (hlog : QueryTag.mainQ ∉ log) :
    (continueAbility store f s page noFailures r log).1 = emptyState ∧
    QueryTag.mainQ ∉ (continueAbility store f s page noFailures r log).2 := by
  unfold continueAbility
  unfold abilityStep at h
  by_cases ha : f.abilityLevelIds = []
  · rw [if_pos ha] at h
    rw [if_pos ha]
    exact continueTerrain_empty store f s page r log h hrne hlog
  · rw [if_neg ha] at h
    rw [if_neg ha]
    rw [if_neg (show ((noFailures).abilityFail = true) → False by simp [noFailures])]
    by_cases hraw : abilityRaw store f = []
    · rw [if_pos hraw]
      refine ⟨rfl, ?_⟩
      simp only [List.mem_append, List.mem_singleton]
      rintro (hm | hm)
      · exact hlog hm
      · exact QueryTag.noConfusion hm
    · rw [if_neg hraw]
      have hlog2 : QueryTag.mainQ ∉ log ++ [QueryTag.abilityQ] := by
        simp only [List.mem_append, List.mem_singleton]
        rintro (hm | hm)
        · exact hlog hm
        · exact QueryTag.noConfusion hm
      cases r with
      | none =>
          simp only []
          refine continueTerrain_empty store f s page (some (abilityRaw store f))
            (log ++ [QueryTag.abilityQ]) h ?_ hlog2
          intro hc
          injection hc with hc2
          exact hraw hc2
      | some l =>
          simp only []
          by_cases hint : List.filter (fun i => decide (i ∈ abilityRaw store f)) l = []
          · rw [if_pos hint]
            refine ⟨rfl, ?_⟩
            simp only [List.mem_append, List.mem_singleton]
            rintro (hm | hm)
            · exact hlog hm
            · exact QueryTag.noConfusion hm
          · rw [if_neg hint]
            refine continueTerrain_empty store f s page
              (some (List.filter (fun i => decide (i ∈ abilityRaw store f)) l))
              (log ++ [QueryTag.abilityQ]) h ?_ hlog2
            intro hc
            injection hc with hc2
            exact hint hc2

/-- C1: whenever multi-row facet resolution produces the empty id set
(the fully resolved restriction is `some []`, covering the size
sub-query, the junction lookups, and every intersection with a previously
computed set), the run ends with `rows = []` and `totalCount = 0` and the
main `board_catalog` query is never issued. -/
theorem claim1_empty_facet_short_circuits (store : Store) (f : Filters)
    (s : String) (page : Nat) (h : afterTerrain store f = some []) :
    (fetchSnowboards store f s page noFailures).1.snowboards = [] ∧
    (fetchSnowboards store f s page noFailures).1.totalCount = 0 ∧
    QueryTag.mainQ ∉ (fetchSnowboards store f s page noFailures).2 := by
  unfold afterTerrain at h
  unfold fetchSnowboards
  by_cases hs : hasSizeFilters f
  · rw [if_pos hs]
    rw [if_neg (show ((noFailures).sizeFail = true) → False by simp [noFailures])]
    by_cases hids : sizeIds store f = []
    · rw [if_pos hids]
      exact ⟨rfl, rfl, by decide⟩
    · rw [if_neg hids]
      have hAS : afterSize store f = some (sizeIds store f) := by
        unfold afterSize
        rw [if_pos hs]
      rw [hAS] at h
      have hres := continueAbility_empty store f s page (some (sizeIds store f))
        [QueryTag.sizeQ] h
        (by
          intro hc
          injection hc with hc2
          exact hids hc2)
        (by decide)
      refine ⟨?_, ?_, hres.2⟩
      · rw [hres.1]
        rfl
      · rw [hres.1]
        rfl
  · rw [if_neg hs]
    have hAS : afterSize store f = none := by
      unfold afterSize
      rw [if_neg hs]
    rw [hAS] at h
    have hres := continueAbility_empty store f s page none [] h
      (by intro hc; exact Option.noConfusion hc)
      (by decide)
    refine ⟨?_, ?_, hres.2⟩
    · rw [hres.1]
      rfl
    · rw [hres.1]
      rfl

/-- C1 witness: a terrain-type selection matched by no junction row
resolves to the empty set; the run returns no rows, count 0, and issues
no main query. -/
theorem claim1_witness :
    afterTerrain demoStore terrainOnlyFilters = some [] ∧
    (fetchSnowboards demoStore terrainOnlyFilters "" 1 noFailures).1.snowboards = [] ∧
    (fetchSnowboards demoStore terrainOnlyFilters "" 1 noFailures).1.totalCount = 0 ∧
    QueryTag.mainQ ∉ (fetchSnowboards demoStore terrainOnlyFilters "" 1 noFailures).2 :=
  ⟨by decide,
    (claim1_empty_facet_short_circuits demoStore terrainOnlyFilters "" 1 (by decide)).1,
    (claim1_empty_facet_short_circuits demoStore terrainOnlyFilters "" 1 (by decide)).2.1,
    (claim1_empty_facet_short_circuits demoStore terrainOnlyFilters "" 1 (by decide)).2.2⟩

theorem mem_searchFilters (s : String) (fl : MainFilter)
    (h : fl ∈ searchFilters s) : ∃ t, fl = MainFilter.ilikeName t := by
  unfold searchFilters at h
  split at h
  · exact absurd h (List.not_mem_nil fl)
  · exact ⟨jsTrim s, List.mem_singleton.mp h⟩

theorem mem_facetNameFilters (catalog : List FacetOption) (sel : List Nat)
    (mk : List String → MainFilter) (fl : MainFilter)
    (h : fl ∈ facetNameFilters catalog sel mk) : ∃ ns, fl = mk ns := by
  unfold facetNameFilters at h
  split at h
  · exact absurd h (List.not_mem_nil fl)
  · dsimp only [] at h
    split at h
    · exact absurd h (List.not_mem_nil fl)
    · exact ⟨_, List.mem_singleton.mp h⟩

theorem mem_yearFilters (ys : List Int) (fl : MainFilter)
    (h : fl ∈ yearFilters ys) : fl = MainFilter.inModelYear ys := by
  unfold yearFilters at h
  split at h
  · exact absurd h (List.not_mem_nil fl)
  · exact List.mem_singleton.mp h

theorem mem_genderFilters (gs : List String) (fl : MainFilter)
    (h : fl ∈ genderFilters gs) : fl = MainFilter.inGender gs := by
  unfold genderFilters at h
  split at h
  · exact absurd h (List.not_mem_nil fl)
  · exact List.mem_singleton.mp h

theorem mem_priceFilters (f : Filters) (fl : MainFilter)
    (h : fl ∈ priceFilters f) :
    (∃ v, fl = MainFilter.gteMsrp v) ∨ (∃ v, fl = MainFilter.lteMsrp v) := by
  unfold priceFilters at h
  rw [List.mem_append] at h
  rcases h with h | h
  · left
    cases hm : f.priceMin with
    | none => rw [hm] at h; exact absurd h (List.not_mem_nil fl)
    | some v => rw [hm] at h; exact ⟨v, List.mem_singleton.mp h⟩
  · right
    cases hm : f.priceMax with
    | none => rw [hm] at h; exact absurd h (List.not_mem_nil fl)
    | some v => rw [hm] at h; exact ⟨v, List.mem_singleton.mp h⟩

theorem mem_flexFilters (f : Filters) (fl : MainFilter)
    (h : fl ∈ flexFilters f) :
    (∃ v, fl = MainFilter.gteFlex v) ∨ (∃ v, fl = MainFilter.lteFlex v) := by
  unfold flexFilters at h
  split at h
  · exact absurd h (List.not_mem_nil fl)
  · rw [List.mem_append] at h
    rcases h with h | h
    · left
      cases hm : f.flexMin with
      | none => rw [hm] at h; exact absurd h (List.not_mem_nil fl)
      | some v => rw [hm] at h; exact ⟨v, List.mem_singleton.mp h⟩
    · right
      cases hm : f.flexMax with
      | none => rw [hm] at h; exact absurd h (List.not_mem_nil fl)
      | some v => rw [hm] at h; exact ⟨v, List.mem_singleton.mp h⟩

theorem buildSingleFilters_no_id (store : Store) (f : Filters) (s : String) :
    ∀ fl ∈ buildSingleFilters store f s, isIdFilter fl = false := by
  intro fl hfl
  simp only [buildSingleFilters, List.mem_append] at hfl
  rcases hfl with ((((((((h | h) | h) | h) | h) | h) | h) | h) | h)
  · obtain ⟨t, rfl⟩ := mem_searchFilters s fl h
    rfl
  · obtain ⟨ns, rfl⟩ := mem_facetNameFilters _ _ _ fl h
    rfl
  · obtain ⟨ns, rfl⟩ := mem_facetNameFilters _ _ _ fl h
    rfl
  · obtain ⟨ns, rfl⟩ := mem_facetNameFilters _ _ _ fl h
    rfl
  · obtain ⟨ns, rfl⟩ := mem_facetNameFilters _ _ _ fl h
    rfl
  · rw [mem_yearFilters _ fl h]
    rfl
  · rcases mem_flexFilters f fl h with ⟨v, rfl⟩ | ⟨v, rfl⟩
    · rfl
    · rfl
  · rw [mem_genderFilters _ fl h]
    rfl
  · rcases mem_priceFilters f fl h with ⟨v, rfl⟩ | ⟨v, rfl⟩
    · rfl
    · rfl

/-- C2: with no dimensional/weight/wide constraint, no ability selection
and no terrain selection, the resolved restriction is `null`
(unrestricted, not an empty set), the pipeline goes straight to the main
query with that null restriction, the main query carries no id inclusion
filter at all, and the main query is issued (unrestricted is never
treated as matching nothing). -/
theorem claim2_unrestricted_state (store : Store) (f : Filters) (s : String)
    (page : Nat) (h1 : hasSizeFilters f = false) (h2 : f.abilityLevelIds = [])
    (h3 : f.terrainTypeIds = []) :
    afterTerrain store f = none ∧
    fetchSnowboards store f s page noFailures =
      runMain store f s page noFailures none [] ∧
    (∀ fl ∈ buildMainFilters store f s none, isIdFilter fl = false) ∧
    QueryTag.mainQ ∈ (fetchSnowboards store f s page noFailures).2 := by
  have hs : ((hasSizeFilters f = true) → False) := by
    rw [h1]
    exact fun hc => Bool.noConfusion hc
  have hfetch : fetchSnowboards store f s page noFailures =
      runMain store f s page noFailures none [] := by
    unfold fetchSnowboards continueAbility continueTerrain
    rw [if_neg hs, if_pos h2, if_pos h3]
  have hat : afterTerrain store f = none := by
    unfold afterTerrain terrainStep abilityStep afterSize
    rw [if_pos h3, if_pos h2, if_neg hs]
  refine ⟨hat, hfetch, ?_, ?_⟩
  · intro fl hfl
    exact buildSingleFilters_no_id store f s fl hfl
  · rw [hfetch]
    unfold runMain
    rw [if_neg (show ((noFailures).mainFail = true) → False by simp [noFailures])]
    simp

/-- C2 witness: the default filter state is unrestricted over the demo
store: null restriction, no id filter, main query issued. -/
theorem claim2_witness :
    afterTerrain demoStore createDefaultFilters = none ∧
    fetchSnowboards demoStore createDefaultFilters "" 1 noFailures =
      runMain demoStore createDefaultFilters "" 1 noFailures none [] ∧
    (∀ fl ∈ buildMainFilters demoStore createDefaultFilters "" none,
      isIdFilter fl = false) ∧
    QueryTag.mainQ ∈ (fetchSnowboards demoStore createDefaultFilters "" 1 noFailures).2 :=
  claim2_unrestricted_state demoStore createDefaultFilters "" 1 rfl rfl rfl

theorem flex_mem_from_flexFilters (store : Store) (f : Filters) (s : String)
    (r : Option (List Nat)) (fl : MainFilter)
    (hfl : fl ∈ buildMainFilters store f s r) (hflex : isFlexFilter fl = true) :
    fl ∈ flexFilters f := by
  unfold buildMainFilters at hfl
  rw [List.mem_append] at hfl
  rcases hfl with h | h
  · cases r with
    | none => exact absurd h (List.not_mem_nil fl)
    | some ids =>
        rw [List.mem_singleton.mp h] at hflex
        exact Bool.noConfusion hflex
  · simp only [buildSingleFilters, List.mem_append] at h
    rcases h with ((((((((h | h) | h) | h) | h) | h) | h) | h) | h)
    · obtain ⟨t, rfl⟩ := mem_searchFilters s fl h
      exact Bool.noConfusion hflex
    · obtain ⟨ns, rfl⟩ := mem_facetNameFilters _ _ _ fl h
      exact Bool.noConfusion hflex
    · obtain ⟨ns, rfl⟩ := mem_facetNameFilters _ _ _ fl h
      exact Bool.noConfusion hflex
    · obtain ⟨ns, rfl⟩ := mem_facetNameFilters _ _ _ fl h
      exact Bool.noConfusion hflex
    · obtain ⟨ns, rfl⟩ := mem_facetNameFilters _ _ _ fl h
      exact Bool.noConfusion hflex
    · rw [mem_yearFilters _ fl h] at hflex
      exact Bool.noConfusion hflex
    · exact h
    · rw [mem_genderFilters _ fl h] at hflex
      exact Bool.noConfusion hflex
    · rcases mem_priceFilters f fl h with ⟨v, rfl⟩ | ⟨v, rfl⟩
      · exact Bool.noConfusion hflex
      · exact Bool.noConfusion hflex

/-- C7: when the applied flex range is the exact default (flexMin = 1 and
flexMax = 10), the main query carries no flex_rating predicate at all;
for any other range, an inclusive `gte` (resp. `lte`) bound on
`flex_rating` is present for exactly each present bound. -/
theorem claim7_flex_default_unconstrained (store : Store) (f : Filters)
    (s : String) (r : Option (List Nat)) :
    (f.flexMin = some 1 ∧ f.flexMax = some 10 →
      ∀ fl ∈ buildMainFilters store f s r, isFlexFilter fl = false) ∧
    (¬ (f.flexMin = some 1 ∧ f.flexMax = some 10) →
      (∀ v, f.flexMin = some v →
        MainFilter.gteFlex v ∈ buildMainFilters store f s r) ∧
      (∀ v, f.flexMax = some v →
        MainFilter.lteFlex v ∈ buildMainFilters store f s r) ∧
      (f.flexMin = none →
        ∀ v, MainFilter.gteFlex v ∉ buildMainFilters store f s r) ∧
      (f.flexMax = none →
        ∀ v, MainFilter.lteFlex v ∉ buildMainFilters store f s r)) := by
  constructor
  · intro hd fl hfl
    cases hb : isFlexFilter fl with
    | false => rfl
    | true =>
        have hmem := flex_mem_from_flexFilters store f s r fl hfl hb
        unfold flexFilters at hmem
        rw [if_pos hd] at hmem
        exact absurd hmem (List.not_mem_nil fl)
  · intro hnd
    have hflexmem : ∀ fl, fl ∈ flexFilters f → fl ∈ buildMainFilters store f s r := by
      intro fl hm
      unfold buildMainFilters
      rw [List.mem_append]
      right
      unfold buildSingleFilters
      simp only [List.mem_append]
      exact Or.inl (Or.inl (Or.inr hm))
    refine ⟨?_, ?_, ?_, ?_⟩
    · intro v hv
      refine hflexmem _ ?_
      unfold flexFilters
      rw [if_neg hnd, hv]
      exact List.mem_append.mpr (Or.inl (List.mem_singleton.mpr rfl))
    · intro v hv
      refine hflexmem _ ?_
      unfold flexFilters
      rw [if_neg hnd, hv]
      exact List.mem_append.mpr (Or.inr (List.mem_singleton.mpr rfl))
    · intro hnone v hmem
      have hx := flex_mem_from_flexFilters store f s r _ hmem rfl
      unfold flexFilters at hx
      rw [if_neg hnd, hnone] at hx
      rcases List.mem_append.mp hx with hh | hh
      · exact absurd hh (List.not_mem_nil _)
      · cases hM : f.flexMax with
        | none =>
            rw [hM] at hh
            exact absurd hh (List.not_mem_nil _)
        | some w =>
            rw [hM] at hh
            exact MainFilter.noConfusion (List.mem_singleton.mp hh)
    · intro hnone v hmem
      have hx := flex_mem_from_flexFilters store f s r _ hmem rfl
      unfold flexFilters at hx
      rw [if_neg hnd, hnone] at hx
      rcases List.mem_append.mp hx with hh | hh
      · cases hM : f.flexMin with
        | none =>
            rw [hM] at hh
            exact absurd hh (List.not_mem_nil _)
        | some w =>
            rw [hM] at hh
            exact MainFilter.noConfusion (List.mem_singleton.mp hh)
      · exact absurd hh (List.not_mem_nil _)

/-- C7 witness: at the default range no flex predicate is present; with
flexMin set to 2 the gte predicate is present. -/
theorem claim7_witness :
    (∀ fl ∈ buildMainFilters demoStore createDefaultFilters "" none,
      isFlexFilter fl = false) ∧
    MainFilter.gteFlex 2 ∈
      buildMainFilters demoStore ({ createDefaultFilters with flexMin := some 2 }) "" none :=
  ⟨(claim7_flex_default_unconstrained demoStore createDefaultFilters "" none).1 ⟨rfl, rfl⟩,
   ((claim7_flex_default_unconstrained demoStore
      ({ createDefaultFilters with flexMin := some 2 }) "" none).2 (by decide)).1 2 rfl⟩

theorem runMain_error_cases (store : Store) (f : Filters) (s : String)
    (page : Nat) (fail : Failures) (r : Option (List Nat)) (log : List QueryTag) :
    (runMain store f s page fail r log).1 = errorState ∨
    ((runMain store f s page fail r log).1).error = none := by
  unfold runMain
  by_cases hm : fail.mainFail = true
  · rw [if_pos hm]
    exact Or.inl rfl
  · rw [if_neg hm]
    exact Or.inr rfl

theorem continueTerrain_error_cases (store : Store) (f : Filters) (s : String)
    (page : Nat) (fail : Failures) (r : Option (List Nat)) (log : List QueryTag) :
    (continueTerrain store f s page fail r log).1 = errorState ∨
    ((continueTerrain store f s page fail r log).1).error = none := by
  unfold continueTerrain
  by_cases ht : f.terrainTypeIds = []
  · rw [if_pos ht]
    exact runMain_error_cases store f s page fail r log
  · rw [if_neg ht]
    by_cases htf : fail.terrainFail = true
    · rw [if_pos htf]
      exact Or.inl rfl
    · rw [if_neg htf]
      by_cases hraw : terrainRaw store f = []
      · rw [if_pos hraw]
        exact Or.inr rfl
      · rw [if_neg hraw]
        cases r with
        | none =>
            simp only []
            exact runMain_error_cases store f s page fail _ _
        | some ids =>
            simp only []
            by_cases hint : List.filter (fun i => decide (i ∈ terrainRaw store f)) ids = []
            · rw [if_pos hint]
              exact Or.inr rfl
            · rw [if_neg hint]
              exact runMain_error_cases store f s page fail _ _

theorem continueAbility_error_cases (store : Store) (f : Filters) (s : String)
    (page : Nat) (fail : Failures) (r : Option (List Nat)) (log : List QueryTag) :
    (continueAbility store f s page fail r log).1 = errorState ∨
    ((continueAbility store f s page fail r log).1).error = none := by
  unfold continueAbility
  by_cases ha : f.abilityLevelIds = []
  · rw [if_pos ha]
    exact continueTerrain_error_cases store f s page fail r log
  · rw [if_neg ha]
    by_cases haf : fail.abilityFail = true
    · rw [if_pos haf]
      exact Or.inl rfl
    · rw [if_neg haf]
      by_cases hraw : abilityRaw store f = []
      · rw [if_pos hraw]
        exact Or.inr rfl
      · rw [if_neg hraw]
        cases r with
        | none =>
            simp only []
            exact continueTerrain_error_cases store f s page fail _ _
        | some ids =>
            simp only []
            by_cases hint : List.filter (fun i => decide (i ∈ abilityRaw store f)) ids = []
            · rw [if_pos hint]
              exact Or.inr rfl
            · rw [if_neg hint]
              exact continueTerrain_error_cases store f s page fail _ _

theorem fetch_error_cases (store : Store) (f : Filters) (s : String)
    (page : Nat) (fail : Failures) :
    (fetchSnowboards store f s page fail).1 = errorState ∨
    ((fetchSnowboards store f s page fail).1).error = none := by
  unfold fetchSnowboards
  by_cases hs : hasSizeFilters f = true
  · rw [if_pos hs]
    by_cases hsf : fail.sizeFail = true
    · rw [if_pos hsf]
      exact Or.inl rfl
    · rw [if_neg hsf]
      by_cases hids : sizeIds store f = []
      · rw [if_pos hids]
        exact Or.inr rfl
      · rw [if_neg hids]
        exact continueAbility_error_cases store f s page fail _ _
  · rw [if_neg hs]
    exact continueAbility_error_cases store f s page fail _ _

/-- C5 (amended): the failure path does not leave the previously
displayed rows in place — on any transport failure the completed run
deterministically resets the displayed state: rows `= []`,
`totalCount = 0`, and the fixed user-facing error message set.  (Rows
and count are never mutated partially: every completed run writes them
together.) -/
theorem claim5_failure_clears_display (store : Store) (f : Filters)
    (s : String) (page : Nat) (fail : Failures) (prev : ViewState)
    (h : (fetchStep store f s page fail prev).error.isSome = true) :
    fetchStep store f s page fail prev = errorState := by
  rcases fetch_error_cases store f s page fail with he | hn
  · exact he
  · exfalso
    unfold fetchStep at h
    rw [hn] at h
    exact Bool.noConfusion h

/-- C5 counterexample: with a non-empty previously displayed result, a
failing main query replaces the displayed rows with `[]` and the count
with `0` — the previous rows are not kept, contradicting the claim that
displayed state is replaced only on success. -/
theorem claim5_counterexample :
    prevDisplayed.snowboards ≠ [] ∧
    (fetchStep demoStore createDefaultFilters "" 1 failMainOnly prevDisplayed).snowboards = [] ∧
    (fetchStep demoStore createDefaultFilters "" 1 failMainOnly prevDisplayed).snowboards ≠
      prevDisplayed.snowboards ∧
    (fetchStep demoStore createDefaultFilters "" 1 failMainOnly prevDisplayed).totalCount ≠
      prevDisplayed.totalCount ∧
    (fetchStep demoStore createDefaultFilters "" 1 failMainOnly prevDisplayed).error.isSome = true := by
  decide

/-- C5 witness: the failing run over the demo store ends exactly in the
error state. -/
theorem claim5_witness :
    fetchStep demoStore createDefaultFilters "" 1 failMainOnly prevDisplayed = errorState :=
  claim5_failure_clears_display demoStore createDefaultFilters "" 1 failMainOnly
    prevDisplayed (by decide)

/-- C6 counterexample: the main query orders by `model_name` only, so
over two rows sharing a display name both output orders are valid
executions of the request; in particular a valid execution can return the
ties NOT ordered by the identity column — the claimed deterministic id
tie-break does not exist. -/
theorem claim6_counterexample :
    validMainExecution tieStore createDefaultFilters "" none 1 [rowTieA, rowTieB] 2 ∧
    validMainExecution tieStore createDefaultFilters "" none 1 [rowTieB, rowTieA] 2 ∧
    [rowTieB, rowTieA] ≠ [rowTieA, rowTieB] ∧
    ¬ List.Sorted nameThenIdLe [rowTieB, rowTieA] := by
  refine ⟨⟨[rowTieA, rowTieB], by decide, by decide, by decide, by decide⟩,
    ⟨[rowTieB, rowTieA], by decide, by decide, by decide, by decide⟩,
    by decide, by decide⟩

/-- C6 (amended): every valid execution of the main query returns a page
ordered by display name ascending; the relative order of rows sharing a
display name is unspecified (no identity-column tie-break is requested). -/
theorem claim6_page_sorted_by_name (store : Store) (f : Filters) (s : String)
    (r : Option (List Nat)) (page : Nat) (out : List CatalogRow) (cnt : Nat)
    (h : validMainExecution store f s r page out cnt) :
    List.Sorted nameLe out := by
  obtain ⟨perm, hperm, hsort, hout, hcnt⟩ := h
  rw [hout]
  exact List.Pairwise.sublist
    ((List.take_sublist _ _).trans (List.drop_sublist _ _)) hsort

/-- C6 witness: a concrete valid execution over the tied store has its
page sorted by name. -/
theorem claim6_witness :
    List.Sorted nameLe [rowTieB, rowTieA] :=
  claim6_page_sorted_by_name tieStore createDefaultFilters "" none 1
    [rowTieB, rowTieA] 2
    ⟨[rowTieB, rowTieA], by decide, by decide, by decide, by decide⟩

theorem lastEdit_cons (v : String) (vs : List String) (h : vs ≠ []) :
    lastEdit (v :: vs) = lastEdit vs := by
  cases vs with
  | nil => exact absurd rfl h
  | cons w ws => rfl

theorem foldl_applyEdit_eq (vs : List String) :
    ∀ st : DebounceState, vs ≠ [] →
      vs.foldl applyEdit st =
        { searchQuery := lastEdit vs
          timerPending := true
          currentPage := st.currentPage
          fetchCount := st.fetchCount
          commits := st.commits } := by
  induction vs with
  | nil =>
      intro st h
      exact absurd rfl h
  | cons v vs ih =>
      intro st _
      rw [List.foldl_cons]
      by_cases hv : vs = []
      · subst hv
        rfl
      · rw [ih (applyEdit st v) hv, lastEdit_cons v vs hv]
        rfl

/-- C8 (amended): a burst of successive text-search edits, each within
the debounce window of the previous one, commits exactly one search value
(the last edit), resets the page to 1, and triggers exactly one query
when the page was already 1 — but exactly two queries when the page reset
changes `currentPage`, because the page watcher also fires. -/
theorem claim8_burst_behavior (st : DebounceState) (vs : List String)
    (h : vs ≠ []) :
    (runBurst st vs).commits = st.commits ++ [lastEdit vs] ∧
    (runBurst st vs).searchQuery = lastEdit vs ∧
    (runBurst st vs).currentPage = 1 ∧
    (runBurst st vs).fetchCount =
      st.fetchCount + (if st.currentPage = 1 then 1 else 2) := by
  unfold runBurst
  rw [foldl_applyEdit_eq vs st h]
  exact ⟨rfl, rfl, rfl, rfl⟩

/-- C8 counterexample: a two-edit burst starting on page 2 commits one
value ("ab") and resets the page, but triggers two queries — the
explicit fetch of the debounced commit plus the `currentPage` watcher —
contradicting "at most one query is triggered for the whole burst". -/
theorem claim8_counterexample :
    (runBurst pageTwoDebounce ["a", "ab"]).commits = ["ab"] ∧
    (runBurst pageTwoDebounce ["a", "ab"]).currentPage = 1 ∧
    (runBurst pageTwoDebounce ["a", "ab"]).fetchCount = 2 ∧
    ¬ ((runBurst pageTwoDebounce ["a", "ab"]).fetchCount -
        pageTwoDebounce.fetchCount ≤ 1) := by
  decide

/-- C8 witness: the amended burst behavior at a concrete two-edit burst
from page 2. -/
theorem claim8_witness :
    (runBurst pageTwoDebounce ["a", "ab"]).commits =
      pageTwoDebounce.commits ++ [lastEdit ["a", "ab"]] ∧
    (runBurst pageTwoDebounce ["a", "ab"]).searchQuery = lastEdit ["a", "ab"] ∧
    (runBurst pageTwoDebounce ["a", "ab"]).currentPage = 1 ∧
    (runBurst pageTwoDebounce ["a", "ab"]).fetchCount =
      pageTwoDebounce.fetchCount +
        (if pageTwoDebounce.currentPage = 1 then 1 else 2) :=
  claim8_burst_behavior pageTwoDebounce ["a", "ab"] (by decide)

/-- C9: `goToPage(n)` with `n < 1` or `n > totalPages` is a no-op — the
state (including `currentPage` and the fetch counter) is unchanged, so no
query fires; with `1 ≤ n ≤ totalPages` it sets `currentPage := n`; and it
preserves the invariant `1 ≤ currentPage`. -/
theorem claim9_goToPage_clamp (st : PageState) (n : Int) :
    ((n < 1 ∨ totalPages st < n) → goToPage st n = st) ∧
    (1 ≤ n → n ≤ totalPages st → (goToPage st n).currentPage = n) ∧
    (1 ≤ st.currentPage → 1 ≤ (goToPage st n).currentPage) := by
  refine ⟨?_, ?_, ?_⟩
  · intro h
    unfold goToPage
    rw [if_neg]
    rintro ⟨h1, h2⟩
    rcases h with h | h
    · omega
    · omega
  · intro h1 h2
    unfold goToPage
    rw [if_pos ⟨h1, h2⟩]
  · intro h
    unfold goToPage
    by_cases hc : 1 ≤ n ∧ n ≤ totalPages st
    · rw [if_pos hc]
      exact hc.1
    · rw [if_neg hc]
      exact h

/-- C9 witness: with 25 rows (3 pages), page 0 and page 4 are no-ops,
page 2 is accepted and keeps the invariant. -/
theorem claim9_witness :
    goToPage pageDemo 0 = pageDemo ∧
    goToPage pageDemo 4 = pageDemo ∧
    (goToPage pageDemo 2).currentPage = 2 ∧
    1 ≤ (goToPage pageDemo 2).currentPage :=
  ⟨(claim9_goToPage_clamp pageDemo 0).1 (Or.inl (by decide)),
   (claim9_goToPage_clamp pageDemo 4).1 (Or.inr (by decide)),
   (claim9_goToPage_clamp pageDemo 2).2.1 (by decide) (by decide),
   (claim9_goToPage_clamp pageDemo 2).2.2 (by decide)⟩

theorem runMain_snowboards_shape (store : Store) (f : Filters) (s : String)
    (page : Nat) (fail : Failures) (r : Option (List Nat)) (log : List QueryTag) :
    ∀ dr ∈ (runMain store f s page fail r log).1.snowboards,
      ∃ b ∈ store.catalog, dr = transformBoard b := by
  intro dr hdr
  unfold runMain at hdr
  by_cases hm : fail.mainFail = true
  · rw [if_pos hm] at hdr
    exact absurd hdr (List.not_mem_nil dr)
  · rw [if_neg hm] at hdr
    simp only [List.mem_map] at hdr
    obtain ⟨b, hb, rfl⟩ := hdr
    refine ⟨b, ?_, rfl⟩
    have h1 := List.take_subset _ _ hb
    have h2 := List.drop_subset _ _ h1
    have h3 := (List.perm_insertionSort nameLe _).subset h2
    exact List.mem_of_mem_filter h3

theorem continueTerrain_snowboards_shape (store : Store) (f : Filters)
    (s : String) (page : Nat) (fail : Failures) (r : Option (List Nat))
    (log : List QueryTag) :
    ∀ dr ∈ (continueTerrain store f s page fail r log).1.snowboards,
      ∃ b ∈ store.catalog, dr = transformBoard b := by
  intro dr hdr
  unfold continueTerrain at hdr
  by_cases ht : f.terrainTypeIds = []
  · rw [if_pos ht] at hdr
    exact runMain_snowboards_shape store f s page fail r log dr hdr
  · rw [if_neg ht] at hdr
    by_cases htf : fail.terrainFail = true
    · rw [if_pos htf] at hdr
      exact absurd hdr (List.not_mem_nil dr)
    · rw [if_neg htf] at hdr
      by_cases hraw : terrainRaw store f = []
      · rw [if_pos hraw] at hdr
        exact absurd hdr (List.not_mem_nil dr)
      · rw [if_neg hraw] at hdr
        cases r with
        | none =>
            exact runMain_snowboards_shape store f s page fail _ _ dr hdr
        | some ids =>
            have hdr2 : dr ∈ ((if List.filter (fun i => decide (i ∈ terrainRaw store f)) ids = []
                then (emptyState, log ++ [QueryTag.terrainQ])
                else runMain store f s page fail
                  (some (List.filter (fun i => decide (i ∈ terrainRaw store f)) ids))
                  (log ++ [QueryTag.terrainQ])).1).snowboards := hdr
            by_cases hint :
                List.filter (fun i => decide (i ∈ terrainRaw store f)) ids = []
            · rw [if_pos hint] at hdr2
              exact absurd hdr2 (List.not_mem_nil dr)
            · rw [if_neg hint] at hdr2
              exact runMain_snowboards_shape store f s page fail _ _ dr hdr2

theorem continueAbility_snowboards_shape (store : Store) (f : Filters)
    (s : String) (page : Nat) (fail : Failures) (r : Option (List Nat))
    (log : List QueryTag) :
    ∀ dr ∈ (continueAbility store f s page fail r log).1.snowboards,
      ∃ b ∈ store.catalog, dr = transformBoard b := by
  intro dr hdr
  unfold continueAbility at hdr
  by_cases ha : f.abilityLevelIds = []
  · rw [if_pos ha] at hdr
    exact continueTerrain_snowboards_shape store f s page fail r log dr hdr
  · rw [if_neg ha] at hdr
    by_cases haf : fail.abilityFail = true
    · rw [if_pos haf] at hdr
      exact absurd hdr (List.not_mem_nil dr)
    · rw [if_neg haf] at hdr
      by_cases hraw : abilityRaw store f = []
      · rw [if_pos hraw] at hdr
        exact absurd hdr (List.not_mem_nil dr)
      · rw [if_neg hraw] at hdr
        cases r with
        | none =>
            exact continueTerrain_snowboards_shape store f s page fail _ _ dr hdr
        | some ids =>
            have hdr2 : dr ∈ ((if List.filter (fun i => decide (i ∈ abilityRaw store f)) ids = []
                then (emptyState, log ++ [QueryTag.abilityQ])
                else continueTerrain store f s page fail
                  (some (List.filter (fun i => decide (i ∈ abilityRaw store f)) ids))
                  (log ++ [QueryTag.abilityQ])).1).snowboards := hdr
            by_cases hint :
                List.filter (fun i => decide (i ∈ abilityRaw store f)) ids = []
            · rw [if_pos hint] at hdr2
              exact absurd hdr2 (List.not_mem_nil dr)
            · rw [if_neg hint] at hdr2
              exact continueTerrain_snowboards_shape store f s page fail _ _ dr hdr2

theorem fetch_snowboards_shape (store : Store) (f : Filters) (s : String)
    (page : Nat) (fail : Failures) :
    ∀ dr ∈ (fetchSnowboards store f s page fail).1.snowboards,
      ∃ b ∈ store.catalog, dr = transformBoard b := by
  intro dr hdr
  unfold fetchSnowboards at hdr
  by_cases hs : hasSizeFilters f = true
  · rw [if_pos hs] at hdr
    by_cases hsf : fail.sizeFail = true
    · rw [if_pos hsf] at hdr
      exact absurd hdr (List.not_mem_nil dr)
    · rw [if_neg hsf] at hdr
      by_cases hids : sizeIds store f = []
      · rw [if_pos hids] at hdr
        exact absurd hdr (List.not_mem_nil dr)
      · rw [if_neg hids] at hdr
        exact continueAbility_snowboards_shape store f s page fail _ _ dr hdr
  · rw [if_neg hs] at hdr
    exact continueAbility_snowboards_shape store f s page fail _ _ dr hdr

/-- C10: every row a successful run displays comes from a catalog row via
the projection: nested brand/profile/shape/response_type objects carry a
null id with the name / standard_name copied verbatim from the flat view
columns, and item identity lives only in the top-level id field. -/
theorem claim10_projection_shape (store : Store) (f : Filters) (s : String)
    (page : Nat) :
    ∀ dr ∈ (fetchSnowboards store f s page noFailures).1.snowboards,
      ∃ b, b ∈ store.catalog ∧ dr.id = b.id ∧ dr.model_name = b.model_name ∧
        dr.brand.id = none ∧ dr.brand.name = b.brand_name ∧
        dr.profile.id = none ∧ dr.profile.standard_name = b.profile ∧
        dr.shape.id = none ∧ dr.shape.standard_name = b.shape ∧
        dr.response_type.id = none ∧
        dr.response_type.standard_name = b.response_type := by
  intro dr hdr
  obtain ⟨b, hb, rfl⟩ := fetch_snowboards_shape store f s page noFailures dr hdr
  exact ⟨b, hb, rfl, rfl, rfl, rfl, rfl, rfl, rfl, rfl, rfl, rfl⟩

/-- C10 witness: the single displayed row of the demo store has the
nested null-id shape with names copied from the view columns. -/
theorem claim10_witness :
    ∃ b, b ∈ demoStore.catalog ∧
      (transformBoard rowNullFlex).id = b.id ∧
      (transformBoard rowNullFlex).model_name = b.model_name ∧
      (transformBoard rowNullFlex).brand.id = none ∧
      (transformBoard rowNullFlex).brand.name = b.brand_name ∧
      (transformBoard rowNullFlex).profile.id = none ∧
      (transformBoard rowNullFlex).profile.standard_name = b.profile ∧
      (transformBoard rowNullFlex).shape.id = none ∧
      (transformBoard rowNullFlex).shape.standard_name = b.shape ∧
      (transformBoard rowNullFlex).response_type.id = none ∧
      (transformBoard rowNullFlex).response_type.standard_name = b.response_type :=
  claim10_projection_shape demoStore createDefaultFilters "" 1
    (transformBoard rowNullFlex) (by decide)

end SnowboardCatalog
